import Mathlib

/-!
Verification of the axentra webhook-ingestion lambda (webhook_processor.py).

The Python source is shallowly embedded: JSON documents are the inductive
type JVal, Python dicts are insertion-ordered association lists, machine
arithmetic in SHA-256 is Nat with explicit mod 2^32, and every fallible
operation returns an Except value. External effects (S3 buckets, the
DynamoDB idempotency ledger, SNS publishes) are modeled by an explicit
Sys state threaded through the handler together with a trace of attempted
calls, with injectable failures in Env. Definitions mirror the source
function by function; theorems at the end check the specification
claim by claim.
-/

/-- JSON-like values. -/
inductive JVal where
  | null : JVal
  | bool : Bool → JVal
  | num : Int → JVal
  | str : String → JVal
  | arr : List JVal → JVal
  | obj : List (String × JVal) → JVal
deriving Repr

mutual

def jvalDecEq : (a b : JVal) → Decidable (a = b)
  | .null, .null => isTrue rfl
  | .null, .bool _ => isFalse (fun h => JVal.noConfusion h)
  | .null, .num _ => isFalse (fun h => JVal.noConfusion h)
  | .null, .str _ => isFalse (fun h => JVal.noConfusion h)
  | .null, .arr _ => isFalse (fun h => JVal.noConfusion h)
  | .null, .obj _ => isFalse (fun h => JVal.noConfusion h)
  | .bool _, .null => isFalse (fun h => JVal.noConfusion h)
  | .bool a, .bool b =>
    match decEq a b with
    | isTrue h => isTrue (by rw [h])
    | isFalse h => isFalse (fun hh => h (JVal.bool.inj hh))
  | .bool _, .num _ => isFalse (fun h => JVal.noConfusion h)
  | .bool _, .str _ => isFalse (fun h => JVal.noConfusion h)
  | .bool _, .arr _ => isFalse (fun h => JVal.noConfusion h)
  | .bool _, .obj _ => isFalse (fun h => JVal.noConfusion h)
  | .num _, .null => isFalse (fun h => JVal.noConfusion h)
  | .num _, .bool _ => isFalse (fun h => JVal.noConfusion h)
  | .num a, .num b =>
    match decEq a b with
    | isTrue h => isTrue (by rw [h])
    | isFalse h => isFalse (fun hh => h (JVal.num.inj hh))
  | .num _, .str _ => isFalse (fun h => JVal.noConfusion h)
  | .num _, .arr _ => isFalse (fun h => JVal.noConfusion h)
  | .num _, .obj _ => isFalse (fun h => JVal.noConfusion h)
  | .str _, .null => isFalse (fun h => JVal.noConfusion h)
  | .str _, .bool _ => isFalse (fun h => JVal.noConfusion h)
  | .str _, .num _ => isFalse (fun h => JVal.noConfusion h)
  | .str a, .str b =>
    match decEq a b with
    | isTrue h => isTrue (by rw [h])
    | isFalse h => isFalse (fun hh => h (JVal.str.inj hh))
  | .str _, .arr _ => isFalse (fun h => JVal.noConfusion h)
  | .str _, .obj _ => isFalse (fun h => JVal.noConfusion h)
  | .arr _, .null => isFalse (fun h => JVal.noConfusion h)
  | .arr _, .bool _ => isFalse (fun h => JVal.noConfusion h)
  | .arr _, .num _ => isFalse (fun h => JVal.noConfusion h)
  | .arr _, .str _ => isFalse (fun h => JVal.noConfusion h)
  | .arr xs, .arr ys =>
    match jvalListDecEq xs ys with
    | isTrue h => isTrue (by rw [h])
    | isFalse h => isFalse (fun hh => h (JVal.arr.inj hh))
  | .arr _, .obj _ => isFalse (fun h => JVal.noConfusion h)
  | .obj _, .null => isFalse (fun h => JVal.noConfusion h)
  | .obj _, .bool _ => isFalse (fun h => JVal.noConfusion h)
  | .obj _, .num _ => isFalse (fun h => JVal.noConfusion h)
  | .obj _, .str _ => isFalse (fun h => JVal.noConfusion h)
  | .obj _, .arr _ => isFalse (fun h => JVal.noConfusion h)
  | .obj fs, .obj gs =>
    match jvalPairsDecEq fs gs with
    | isTrue h => isTrue (by rw [h])
    | isFalse h => isFalse (fun hh => h (JVal.obj.inj hh))

def jvalListDecEq : (a b : List JVal) → Decidable (a = b)
  | [], [] => isTrue rfl
  | [], _ :: _ => isFalse (fun h => List.noConfusion h)
  | _ :: _, [] => isFalse (fun h => List.noConfusion h)
  | x :: xs, y :: ys =>
    match jvalDecEq x y, jvalListDecEq xs ys with
    | isTrue h1, isTrue h2 => isTrue (by rw [h1, h2])
    | isFalse h1, _ => isFalse (fun h => h1 (List.cons.inj h).1)
    | _, isFalse h2 => isFalse (fun h => h2 (List.cons.inj h).2)

def jvalPairsDecEq : (a b : List (String × JVal)) → Decidable (a = b)
  | [], [] => isTrue rfl
  | [], _ :: _ => isFalse (fun h => List.noConfusion h)
  | _ :: _, [] => isFalse (fun h => List.noConfusion h)
  | (k, v) :: xs, (k2, v2) :: ys =>
    match decEq k k2, jvalDecEq v v2, jvalPairsDecEq xs ys with
    | isTrue h0, isTrue h1, isTrue h2 => isTrue (by rw [h0, h1, h2])
    | isFalse h0, _, _ =>
      isFalse (fun h => h0 (congrArg Prod.fst (List.cons.inj h).1))
    | _, isFalse h1, _ =>
      isFalse (fun h => h1 (congrArg Prod.snd (List.cons.inj h).1))
    | _, _, isFalse h2 => isFalse (fun h => h2 (List.cons.inj h).2)

end

instance : DecidableEq JVal := jvalDecEq

instance {ε α : Type} [DecidableEq ε] [DecidableEq α] : DecidableEq (Except ε α) :=
  fun a b =>
    match a, b with
    | .ok x, .ok y =>
      match decEq x y with
      | isTrue h => isTrue (by rw [h])
      | isFalse h => isFalse (fun hh => h (Except.ok.inj hh))
    | .ok _, .error _ => isFalse (fun h => Except.noConfusion h)
    | .error _, .ok _ => isFalse (fun h => Except.noConfusion h)
    | .error x, .error y =>
      match decEq x y with
      | isTrue h => isTrue (by rw [h])
      | isFalse h => isFalse (fun hh => h (Except.error.inj hh))

/- ===== serialization & sha256 ===== -/

def hexDigit (n : Nat) : Char := "0123456789abcdef".toList.getD n '0'

def hexWord (w : Nat) : List Char :=
  [hexDigit ((w >>> 28) &&& 15), hexDigit ((w >>> 24) &&& 15),
   hexDigit ((w >>> 20) &&& 15), hexDigit ((w >>> 16) &&& 15),
   hexDigit ((w >>> 12) &&& 15), hexDigit ((w >>> 8) &&& 15),
   hexDigit ((w >>> 4) &&& 15), hexDigit (w &&& 15)]

def hexWord4 (n : Nat) : List Char :=
  [hexDigit ((n >>> 12) &&& 15), hexDigit ((n >>> 8) &&& 15),
   hexDigit ((n >>> 4) &&& 15), hexDigit (n &&& 15)]

def uEscape (n : Nat) : List Char :=
  if n < 0x10000 then '\\' :: 'u' :: hexWord4 n
  else
    let m := n - 0x10000
    ('\\' :: 'u' :: hexWord4 (0xd800 + m / 1024)) ++ ('\\' :: 'u' :: hexWord4 (0xdc00 + m % 1024))

def jsonEscapeChar (c : Char) : List Char :=
  if c = '"' then ['\\', '"']
  else if c = '\\' then ['\\', '\\']
  else if c = '\n' then ['\\', 'n']
  else if c = '\r' then ['\\', 'r']
  else if c = '\t' then ['\\', 't']
  else if c.toNat = 8 then ['\\', 'b']
  else if c.toNat = 12 then ['\\', 'f']
  else if 0x20 ≤ c.toNat ∧ c.toNat ≤ 0x7e then [c]
  else uEscape c.toNat

def jsonQuote (s : String) : String :=
  String.mk ('"' :: (s.data.map jsonEscapeChar).flatten ++ ['"'])

def keyLE (a b : String × JVal) : Prop := a.1 ≤ b.1

instance : DecidableRel keyLE := fun a b => inferInstanceAs (Decidable (a.1 ≤ b.1))

def insertPair (p : String × JVal) : List (String × JVal) → List (String × JVal)
  | [] => [p]
  | q :: t => if p.1 ≤ q.1 then p :: q :: t else q :: insertPair p t

def sortPairs : List (String × JVal) → List (String × JVal)
  | [] => []
  | p :: t => insertPair p (sortPairs t)

mutual

def normalizeKeys : JVal → JVal
  | .null => .null
  | .bool b => .bool b
  | .num n => .num n
  | .str s => .str s
  | .arr xs => .arr (normalizeList xs)
  | .obj fs => .obj (sortPairs (normalizePairs fs))

def normalizeList : List JVal → List JVal
  | [] => []
  | x :: xs => normalizeKeys x :: normalizeList xs

def normalizePairs : List (String × JVal) → List (String × JVal)
  | [] => []
  | (k, v) :: t => (k, normalizeKeys v) :: normalizePairs t

end

mutual

def serializeJ : JVal → String
  | .null => "null"
  | .bool true => "true"
  | .bool false => "false"
  | .num n => toString n
  | .str s => jsonQuote s
  | .arr xs => "[" ++ String.intercalate ", " (serializeList xs) ++ "]"
  | .obj fs => "\x7b" ++ String.intercalate ", " (serializePairs fs) ++ "\x7d"

def serializeList : List JVal → List String
  | [] => []
  | x :: xs => serializeJ x :: serializeList xs

def serializePairs : List (String × JVal) → List String
  | [] => []
  | (k, v) :: t => (jsonQuote k ++ ": " ++ serializeJ v) :: serializePairs t

end

def jsonDumpsSorted (v : JVal) : String := serializeJ (normalizeKeys v)

def utf8Char (c : Char) : List Nat :=
  let n := c.toNat
  if n < 0x80 then [n]
  else if n < 0x800 then [0xc0 + n / 64, 0x80 + n % 64]
  else if n < 0x10000 then [0xe0 + n / 4096, 0x80 + (n / 64) % 64, 0x80 + n % 64]
  else [0xf0 + n / 262144, 0x80 + (n / 4096) % 64, 0x80 + (n / 64) % 64, 0x80 + n % 64]

def utf8Bytes (s : String) : List Nat := (s.data.map utf8Char).flatten

def M32 : Nat := 4294967296

def add32 (a b : Nat) : Nat := (a + b) % M32

def not32 (a : Nat) : Nat := 4294967295 - a

def rotr (a k : Nat) : Nat := ((a >>> k) ||| (a <<< (32 - k))) % M32

def bSig0 (x : Nat) : Nat := (rotr x 2) ^^^ (rotr x 13) ^^^ (rotr x 22)

def bSig1 (x : Nat) : Nat := (rotr x 6) ^^^ (rotr x 11) ^^^ (rotr x 25)

def sSig0 (x : Nat) : Nat := (rotr x 7) ^^^ (rotr x 18) ^^^ (x >>> 3)

def sSig1 (x : Nat) : Nat := (rotr x 17) ^^^ (rotr x 19) ^^^ (x >>> 10)

def chFun (x y z : Nat) : Nat := (x &&& y) ^^^ ((not32 x) &&& z)

def majFun (x y z : Nat) : Nat := (x &&& y) ^^^ (x &&& z) ^^^ (y &&& z)

def shaK : List Nat :=
  [1116352408, 1899447441, 3049323471, 3921009573, 961987163, 1508970993,
   2453635748, 2870763221, 3624381080, 310598401, 607225278, 1426881987,
   1925078388, 2162078206, 2614888103, 3248222580, 3835390401, 4022224774,
   264347078, 604807628, 770255983, 1249150122, 1555081692, 1996064986,
   2554220882, 2821834349, 2952996808, 3210313671, 3336571891, 3584528711,
   113926993, 338241895, 666307205, 773529912, 1294757372, 1396182291,
   1695183700, 1986661051, 2177026350, 2456956037, 2730485921, 2820302411,
   3259730800, 3345764771, 3516065817, 3600352804, 4094571909, 275423344,
   430227734, 506948616, 659060556, 883997877, 958139571, 1322822218,
   1537002063, 1747873779, 1955562222, 2024104815, 2227730452, 2361852424,
   2428436474, 2756734187, 3204031479, 3329325298]

structure Hash8 where
  a : Nat
  b : Nat
  c : Nat
  d : Nat
  e : Nat
  f : Nat
  g : Nat
  hh : Nat
deriving DecidableEq, Repr

def shaInit : Hash8 :=
  ⟨1779033703, 3144134277, 1013904242, 2773480762, 1359893119, 2600822924, 528734635, 1541459225⟩

def beBytes8 (n : Nat) : List Nat :=
  [(n >>> 56) &&& 255, (n >>> 48) &&& 255, (n >>> 40) &&& 255, (n >>> 32) &&& 255,
   (n >>> 24) &&& 255, (n >>> 16) &&& 255, (n >>> 8) &&& 255, n &&& 255]

def sha256pad (msg : List Nat) : List Nat :=
  let len := msg.length
  let zeros := (119 - (len % 64)) % 64
  msg ++ 0x80 :: (List.replicate zeros 0 ++ beBytes8 (8 * len))

def toWords (bytes : List Nat) : List Nat :=
  (List.range (bytes.length / 4)).map fun i =>
    (bytes.getD (4 * i) 0) * 16777216 + (bytes.getD (4 * i + 1) 0) * 65536 +
    (bytes.getD (4 * i + 2) 0) * 256 + bytes.getD (4 * i + 3) 0

def toBlocks (ws : List Nat) : List (List Nat) :=
  (List.range (ws.length / 16)).map fun i => (ws.drop (16 * i)).take 16

def extendSchedule (block : List Nat) : List Nat :=
  (List.range 48).foldl
    (fun w i =>
      let t := i + 16
      w ++ [add32 (add32 (sSig1 (w.getD (t - 2) 0)) (w.getD (t - 7) 0))
              (add32 (sSig0 (w.getD (t - 15) 0)) (w.getD (t - 16) 0))])
    block

def shaCompress (h : Hash8) (block : List Nat) : Hash8 :=
  let w := extendSchedule block
  let st := (List.range 64).foldl
    (fun s i =>
      let t1 := add32 s.hh (add32 (bSig1 s.e) (add32 (chFun s.e s.f s.g)
                  (add32 (shaK.getD i 0) (w.getD i 0))))
      let t2 := add32 (bSig0 s.a) (majFun s.a s.b s.c)
      ⟨add32 t1 t2, s.a, s.b, s.c, add32 s.d t1, s.e, s.f, s.g⟩)
    h
  ⟨add32 h.a st.a, add32 h.b st.b, add32 h.c st.c, add32 h.d st.d,
   add32 h.e st.e, add32 h.f st.f, add32 h.g st.g, add32 h.hh st.hh⟩

def digestHex (h : Hash8) : String :=
  String.mk (hexWord h.a ++ hexWord h.b ++ hexWord h.c ++ hexWord h.d ++
             hexWord h.e ++ hexWord h.f ++ hexWord h.g ++ hexWord h.hh)

def sha256hex (msg : List Nat) : String :=
  digestHex ((toBlocks (toWords (sha256pad msg))).foldl shaCompress shaInit)

def calculate_payload_hash (payload : JVal) : String :=
  sha256hex (utf8Bytes (jsonDumpsSorted payload))

/- ===== python semantics helpers ===== -/

abbrev PyDict := List (String × JVal)

def pyTruthy : JVal → Bool
  | .null => false
  | .bool b => b
  | .num n => n != 0
  | .str s => s != ""
  | .arr xs => !xs.isEmpty
  | .obj fs => !fs.isEmpty

inductive PyErr where
  | typeError : String → PyErr
  | attributeError : String → PyErr
  | valueError : String → PyErr
  | clientError : String → PyErr
deriving DecidableEq, Repr

def dget (fs : PyDict) (k : String) : Option JVal := (fs.find? (·.1 = k)).map (·.2)

def hasKey (fs : PyDict) (k : String) : Bool := fs.any (·.1 = k)

def assocSet (fs : PyDict) (k : String) (v : JVal) : PyDict :=
  match fs with
  | [] => [(k, v)]
  | (k2, v2) :: t => if k2 = k then (k, v) :: t else (k2, v2) :: assocSet t k v

def dictGetD (v : JVal) (k : String) : JVal :=
  match v with
  | .obj fs => (dget fs k).getD .null
  | _ => .null

def isDictB : JVal → Bool
  | .obj _ => true
  | _ => false

def listPrefixBool : List Char → List Char → Bool
  | [], _ => true
  | _ :: _, [] => false
  | a :: as, b :: bs => a == b && listPrefixBool as bs

def listInfixBool (needle : List Char) : List Char → Bool
  | [] => listPrefixBool needle []
  | b :: bs => listPrefixBool needle (b :: bs) || listInfixBool needle bs

def pySubstr (needle s : String) : Bool := listInfixBool needle.data s.data

def pyContains (needle : String) : JVal → Except PyErr Bool
  | .str s => .ok (pySubstr needle s)
  | .arr xs => .ok (xs.contains (.str needle))
  | .obj fs => .ok (hasKey fs needle)
  | _ => .error (.typeError "argument is not iterable")

mutual

def pyRepr : JVal → String
  | .null => "None"
  | .bool true => "True"
  | .bool false => "False"
  | .num n => toString n
  | .str s => "'" ++ s ++ "'"
  | .arr xs => "[" ++ String.intercalate ", " (pyReprList xs) ++ "]"
  | .obj fs => "\x7b" ++ String.intercalate ", " (pyReprPairs fs) ++ "\x7d"

def pyReprList : List JVal → List String
  | [] => []
  | x :: xs => pyRepr x :: pyReprList xs

def pyReprPairs : List (String × JVal) → List String
  | [] => []
  | (k, v) :: t => ("'" ++ k ++ "': " ++ pyRepr v) :: pyReprPairs t

end

def pyStr : JVal → String
  | .str s => s
  | v => pyRepr v

/- ===== strip_fields ===== -/

def FIELDS_TO_STRIP (context : String) : List String :=
  if context = "products" then ["created_at", "updated_at", "archived_at"]
  else if context = "product_variants" then
    ["image_url", "stock_quantity", "is_default", "stockStatus",
     "lab_test_codes_id", "service_product_id", "cpr_price", "archived_at"]
  else if context = "categories" then ["user_id", "created_at", "last_modified", "image"]
  else []

def anyContainsKey (needle : String) : List JVal → Except PyErr Bool
  | [] => .ok false
  | v :: vs =>
    match pyContains needle v with
    | .error e => .error e
    | .ok true => .ok true
    | .ok false => anyContainsKey needle vs

mutual

def deep_copy_and_strip : JVal → String → Except PyErr JVal
  | .obj fs, context =>
    match (if hasKey fs "product_variants" then Except.ok true
           else if context = "products" then anyContainsKey "product_id" (fs.map Prod.snd)
           else Except.ok false) with
    | .error e => .error e
    | .ok guard =>
      let current_context :=
        if guard then context
        else if context = "products" && hasKey fs "id" && hasKey fs "name" && hasKey fs "is_featured"
        then "categories"
        else context
      match stripPairs fs current_context with
      | .error e => .error e
      | .ok gs => .ok (.obj gs)
  | .arr xs, context =>
    if context = "products" then
      match xs with
      | .obj f0 :: _ =>
        if hasKey f0 "product_id" then
          match stripList xs "product_variants" with
          | .error e => .error e
          | .ok ys => .ok (.arr ys)
        else if hasKey f0 "is_featured" then
          match stripList xs "categories" with
          | .error e => .error e
          | .ok ys => .ok (.arr ys)
        else
          match stripList xs context with
          | .error e => .error e
          | .ok ys => .ok (.arr ys)
      | _ =>
        match stripList xs context with
        | .error e => .error e
        | .ok ys => .ok (.arr ys)
    else
      match stripList xs context with
      | .error e => .error e
      | .ok ys => .ok (.arr ys)
  | v, _ => .ok v

def stripList : List JVal → String → Except PyErr (List JVal)
  | [], _ => .ok []
  | x :: xs, context =>
    match deep_copy_and_strip x context with
    | .error e => .error e
    | .ok y =>
      match stripList xs context with
      | .error e => .error e
      | .ok ys => .ok (y :: ys)

def stripPairs : PyDict → String → Except PyErr PyDict
  | [], _ => .ok []
  | (k, v) :: t, cur =>
    if (FIELDS_TO_STRIP cur).contains k then stripPairs t cur
    else
      let next_context :=
        if k = "product_variants" then "product_variants"
        else if k = "categories" then "categories"
        else if k = "products" then "products"
        else cur
      match v with
      | .obj gs =>
        match deep_copy_and_strip (.obj gs) next_context with
        | .error e => .error e
        | .ok y =>
          match stripPairs t cur with
          | .error e => .error e
          | .ok rest => .ok ((k, y) :: rest)
      | .arr xs =>
        match deep_copy_and_strip (.arr xs) next_context with
        | .error e => .error e
        | .ok y =>
          match stripPairs t cur with
          | .error e => .error e
          | .ok rest => .ok ((k, y) :: rest)
      | _ =>
        match stripPairs t cur with
        | .error e => .error e
        | .ok rest => .ok ((k, v) :: rest)

end

def strip_fields (payload : JVal) : Except PyErr JVal := deep_copy_and_strip payload "root"

-- crash on non-iterable value in products context without product_variants key
-- non-idempotence counterexample

def cNonIdem : JVal :=
  .obj [("products", .obj [("created_at", .str "product_id"), ("id", .str "1"),
    ("name", .str "n"), ("is_featured", .str "y"), ("image", .str "img")])]

/- ===== identity extractors ===== -/

def get_store_id_from_products (payload : PyDict) : Option JVal :=
  match dget payload "products" with
  | some (.obj pf) =>
    match dget pf "store_id" with
    | some (.str s) => some (.str s)
    | _ => none
  | _ => none

def get_store_id (payload : PyDict) : Option JVal :=
  match dget payload "store_id" with
  | some (.str s) => some (.str s)
  | some (.obj sf) =>
    match dget sf "id" with
    | some v => some v
    | none => get_store_id_from_products payload
  | _ => get_store_id_from_products payload

def get_product_id (payload : PyDict) : Option String :=
  match dget payload "products" with
  | some (.obj pf) =>
    match dget pf "product_id" with
    | some v => some (pyStr v)
    | none =>
      match dget pf "id" with
      | some v => some (pyStr v)
      | none => none
  | _ => none

def get_store_domain (payload : PyDict) : Option String :=
  match dget payload "store_domain" with
  | some v => some (pyStr v)
  | none =>
    let fromSid : Option String :=
      match dget payload "store_id" with
      | some (.obj sf) =>
        match dget sf "domain" with
        | some v => some (pyStr v)
        | none =>
          match dget sf "store_domain" with
          | some v => some (pyStr v)
          | none => none
      | _ => none
    match fromSid with
    | some s => some s
    | none =>
      match dget payload "products" with
      | some (.obj pf) =>
        match dget pf "store_domain" with
        | some v => some (pyStr v)
        | none => none
      | _ => none

def get_company_id (payload : PyDict) : Option JVal := get_store_id payload

/- ===== event classifier ===== -/

def normalize_event_type (s : String) : String :=
  if s = "product_update" then "product_update"
  else if s = "product_deletion" then "product_delete"
  else if s = "new_product" then "product_create"
  else if s = "new_store" then "store_create"
  else if s = "deleted_store" then "store_delete"
  else if s = "updated_store" then "store_update"
  else s

def detect_event_type (payload : PyDict) : Except PyErr String :=
  let explicit : Option String :=
    match dget payload "event_type" with
    | some (.str s) => if s ≠ "" then some (normalize_event_type s) else none
    | _ => none
  match explicit with
  | some r => .ok r
  | none =>
    match dget payload "products" with
    | some products =>
      if isDictB products && pyTruthy (dictGetD products "archived_at") then .ok "product_delete"
      else if isDictB products && pyTruthy (dictGetD products "id") then .ok "product_update"
      else
        match products with
        | .obj pf =>
          if pyTruthy ((dget pf "product_id").getD .null) then .ok "product_update"
          else .ok "product_create"
        | _ => .error (.attributeError "object has no attribute get")
    | none =>
      match dget payload "store_id" with
      | some sid =>
        if pyTruthy sid && isDictB sid then
          if pyTruthy (dictGetD sid "archived_at") then .ok "store_delete"
          else if pyTruthy (dictGetD sid "id") then .ok "store_update"
          else .ok "store_create"
        else
          match sid with
          | .str _ => .ok "store_update"
          | _ => .ok "unknown"
      | none => .ok "unknown"

def canonical_event_types : List String :=
  ["product_create", "product_update", "product_delete",
   "store_create", "store_delete", "store_update", "unknown"]

def get_routing_target (event_type : String) : String :=
  if event_type = "product_create" then "product-service"
  else if event_type = "product_update" then "product-service"
  else if event_type = "product_delete" then "product-service"
  else if event_type = "store_create" then "store-service"
  else if event_type = "store_update" then "store-service"
  else if event_type = "store_delete" then "store-service"
  else if event_type = "unknown" then "default-handler"
  else "default-handler"

def enrich_payload (payload : PyDict) (payload_hash : String) (event_type : String)
    (now_iso event_version : String) : PyDict :=
  assocSet payload "_metadata"
    (.obj [("processing_timestamp", .str now_iso), ("payload_hash", .str payload_hash),
           ("event_version", .str event_version), ("event_type", .str event_type)])

-- spot checks against the repository's tests

/- ===== external state model ===== -/

inductive Bucket where
  | raw : Bucket
  | processed : Bucket
deriving DecidableEq, Repr

inductive Op where
  | putObj : Bucket → String → Op
  | getObj : Bucket → String → Op
  | headObj : Bucket → String → Op
  | listObjects : Bucket → String → Op
  | deleteObj : Bucket → String → Op
  | queryLedger : String → Op
  | putLedgerItem : String → Op
  | publish : String → String → Op
deriving DecidableEq, Repr

structure LedgerItem where
  payload_hash : String
  processing_timestamp : String
  event_id : String
  event_type : String
  s3_key : String
  status : String
  routing_target : String
  ttl : Nat
  store_id : Option JVal
deriving DecidableEq, Repr

structure Sys where
  rawBucket : List (String × JVal)
  processedBucket : List (String × JVal)
  ledger : List LedgerItem
  published : List (String × String)
deriving DecidableEq, Repr

structure Clock where
  year : String
  month : String
  day : String
  iso : String
  epoch : Nat
deriving DecidableEq, Repr

structure Env where
  now : Clock
  kbTopic : Option String
  failPuts : List (Bucket × String)
  failPutItem : Bool
  failQuery : Bool
deriving DecidableEq, Repr

def s3get (l : List (String × JVal)) (k : String) : Option JVal :=
  (l.find? (·.1 = k)).map (·.2)

def bucketOf (st : Sys) (b : Bucket) : List (String × JVal) :=
  match b with
  | .raw => st.rawBucket
  | .processed => st.processedBucket

def bucketPut (st : Sys) (b : Bucket) (k : String) (v : JVal) : Sys :=
  match b with
  | .raw => { st with rawBucket := (k, v) :: st.rawBucket }
  | .processed => { st with processedBucket := (k, v) :: st.processedBucket }

def put_object (env : Env) (b : Bucket) (key : String) (body : JVal) (st : Sys) :
    Except PyErr Unit × Sys × List Op :=
  if (b, key) ∈ env.failPuts then (.error (.clientError "put_object failed"), st, [.putObj b key])
  else (.ok (), bucketPut st b key body, [.putObj b key])

def pyErrMsg : PyErr → String
  | .typeError m => m
  | .attributeError m => m
  | .valueError m => m
  | .clientError m => m

def pyIndex (v : JVal) (k : String) : Except PyErr JVal :=
  match v with
  | .obj fs =>
    match dget fs k with
    | some x => .ok x
    | none => .error (.valueError "KeyError")
  | _ => .error (.typeError "indices must be integers")

/- ===== source operations over the state model ===== -/

def check_store_exists (store_id : JVal) (st : Sys) : Bool × List Op :=
  let pfx := pyStr store_id ++ "/store_create/"
  (st.rawBucket.any (fun kv => pfx.isPrefixOf kv.1), [.listObjects .raw pfx])

def check_product_exists (product_id : String) (st : Sys) : Bool × List Op :=
  let key := "master/products/" ++ product_id ++ ".json"
  ((s3get st.processedBucket key).isSome, [.headObj .processed key])

def create_store_if_not_exists (env : Env) (store_id : JVal) (payload : PyDict)
    (event_id : String) (st : Sys) : Except PyErr (Option String) × Sys × List Op :=
  let (ex, ops0) := check_store_exists store_id st
  if ex then (.ok none, st, ops0)
  else
    let store_domain := get_store_domain payload
    let storeVal : JVal :=
      match store_domain with
      | some s => if s ≠ "" then .str s else store_id
      | none => store_id
    let metadata : JVal :=
      .obj [("metadataAttributes", .obj
        [("store", storeVal), ("store_id", store_id),
         ("created_at", .str env.now.iso), ("created_by_event", .str event_id)])]
    let key := pyStr store_id ++ "/store_create/" ++ env.now.year ++ "/" ++ env.now.month ++
               "/" ++ env.now.day ++ "/" ++ event_id ++ ".metadata.json"
    let r := put_object env .raw key metadata st
    ((match r.1 with
      | .ok _ => .ok (some key)
      | .error e => .error e), r.2.1, ops0 ++ r.2.2)

def create_product_if_not_exists (env : Env) (product_id : String) (payload : PyDict)
    (st : Sys) : Except PyErr (Option String) × Sys × List Op :=
  let (ex, ops0) := check_product_exists product_id st
  if ex then (.ok none, st, ops0)
  else
    let product_data : JVal :=
      match dget payload "products" with
      | some (.obj pf) => .obj pf
      | _ => .obj [("product_id", .str product_id), ("created_at", .str env.now.iso)]
    let key := "master/products/" ++ product_id ++ ".json"
    let r := put_object env .processed key (.obj [("products", product_data)]) st
    ((match r.1 with
      | .ok _ => .ok (some key)
      | .error e => .error e), r.2.1, ops0 ++ r.2.2)

def raw_s3_key_of (env : Env) (etype event_id : String) (sidv : JVal) : String :=
  pyStr sidv ++ "/" ++ etype ++ "/" ++ env.now.year ++ "/" ++ env.now.month ++ "/" ++
  env.now.day ++ "/" ++ event_id ++ ".json"

def store_raw_payload (env : Env) (payload : PyDict) (etype event_id : String)
    (sid : Option JVal) (st : Sys) : Except PyErr String × Sys × List Op :=
  let sidv : JVal :=
    match sid with
    | some v => v
    | none =>
      match get_store_id payload with
      | some v => if pyTruthy v then v else .str "unknown"
      | none => .str "unknown"
  let key := raw_s3_key_of env etype event_id sidv
  let r := put_object env .raw key (.obj payload) st
  ((match r.1 with
    | .ok _ => .ok key
    | .error e => .error e), r.2.1, r.2.2)

def store_store_metadata (env : Env) (payload : PyDict) (etype event_id : String)
    (sid : Option JVal) (pid : Option String) (st : Sys) :
    Except PyErr (Option String) × Sys × List Op :=
  if etype ≠ "store_create" then (.ok none, st, [])
  else
    let store_domain := get_store_domain payload
    let sidJ : JVal := sid.getD .null
    let storeVal : JVal :=
      match store_domain with
      | some s => if s ≠ "" then .str s else sidJ
      | none => sidJ
    let attrs : PyDict := [("store", storeVal), ("store_id", sidJ)]
    let attrs :=
      match pid with
      | some p => if p ≠ "" then attrs ++ [("product_id", .str p)] else attrs
      | none => attrs
    let metadata : JVal := .obj [("metadataAttributes", .obj attrs)]
    let key := pyStr sidJ ++ "/" ++ etype ++ "/" ++ env.now.year ++ "/" ++ env.now.month ++
               "/" ++ env.now.day ++ "/" ++ event_id ++ ".metadata.json"
    let r := put_object env .raw key metadata st
    ((match r.1 with
      | .ok _ => .ok (some key)
      | .error e => .error e), r.2.1, r.2.2)

def store_to_master_catalog (env : Env) (payload : PyDict) (product_id : String)
    (st : Sys) : Except PyErr String × Sys × List Op :=
  let key := "master/products/" ++ product_id ++ ".json"
  let r := put_object env .processed key (.obj payload) st
  ((match r.1 with
    | .ok _ => .ok key
    | .error e => .error e), r.2.1, r.2.2)

def overwriteVariantPrices (v : JVal) (price : JVal) : Except PyErr JVal :=
  match v with
  | .arr xs => .ok (.arr (xs.map fun x =>
      match x with
      | .obj f => .obj (assocSet f "price" price)
      | other => other))
  | .obj fs => .ok (.obj fs)
  | .str s => .ok (.str s)
  | _ => .error (.typeError "object is not iterable")

def copy_to_store_catalog (env : Env) (product_id : String) (store_id : JVal)
    (mods_price : Option JVal) (st : Sys) : Except PyErr (Option String) × Sys × List Op :=
  let masterKey := "master/products/" ++ product_id ++ ".json"
  match s3get st.processedBucket masterKey with
  | none => (.ok none, st, [.getObj .processed masterKey])
  | some master =>
    match master with
    | .obj mf =>
      match dget mf "products" with
      | some (.obj pf) =>
        let modsTruthy :=
          match mods_price with
          | some p => pyTruthy p
          | none => false
        let pf1E : Except PyErr PyDict :=
          if hasKey pf "product_variants" && modsTruthy then
            match overwriteVariantPrices ((dget pf "product_variants").getD .null)
                    (mods_price.getD .null) with
            | .error e => .error e
            | .ok newVariants => .ok (assocSet pf "product_variants" newVariants)
          else .ok pf
        match pf1E with
        | .error e => (.error e, st, [.getObj .processed masterKey])
        | .ok pf1 =>
          let pf2 := assocSet pf1 "store_id" store_id
          let storeBody : JVal := .obj (assocSet mf "products" (.obj pf2))
          let storeKey := "stores/" ++ pyStr store_id ++ "/products/" ++ product_id ++ ".json"
          let r := put_object env .processed storeKey storeBody st
          ((match r.1 with
            | .ok _ => .ok (some storeKey)
            | .error e => .error e), r.2.1, .getObj .processed masterKey :: r.2.2)
      | _ => (.error (.valueError "Invalid master product structure"), st,
              [.getObj .processed masterKey])
    | .arr xs =>
      if xs.contains (.str "products") then
        (.error (.typeError "list indices must be integers"), st, [.getObj .processed masterKey])
      else (.error (.valueError "Invalid master product structure"), st,
            [.getObj .processed masterKey])
    | .str s =>
      if pySubstr "products" s then
        (.error (.typeError "string indices must be integers"), st, [.getObj .processed masterKey])
      else (.error (.valueError "Invalid master product structure"), st,
            [.getObj .processed masterKey])
    | _ => (.error (.typeError "argument is not iterable"), st, [.getObj .processed masterKey])

def delete_from_store_catalog (product_id : String) (store_id : JVal) (st : Sys) :
    Sys × List Op :=
  let key := "stores/" ++ pyStr store_id ++ "/products/" ++ product_id ++ ".json"
  ({ st with processedBucket := st.processedBucket.filter (·.1 ≠ key) },
   [.deleteObj .processed key])

def trigger_kb_refresh (env : Env) (store_id : JVal) (st : Sys) : Sys × List Op :=
  match env.kbTopic with
  | some topic =>
    ({ st with published := (topic, pyStr store_id) :: st.published },
     [.publish topic (pyStr store_id)])
  | none => (st, [])

def check_idempotency (env : Env) (payload_hash : String) (st : Sys) :
    Option LedgerItem × List Op :=
  if env.failQuery then (none, [.queryLedger payload_hash])
  else (st.ledger.find? (·.payload_hash = payload_hash), [.queryLedger payload_hash])

def register_event (env : Env) (payload_hash event_id event_type s3_key routing_target : String)
    (store_id : Option JVal) (st : Sys) : Except PyErr Unit × Sys × List Op :=
  let item : LedgerItem :=
    { payload_hash := payload_hash, processing_timestamp := env.now.iso,
      event_id := event_id, event_type := event_type, s3_key := s3_key,
      status := "processed", routing_target := routing_target,
      ttl := env.now.epoch + 7 * 365 * 24 * 60 * 60,
      store_id :=
        match store_id with
        | some v => if pyTruthy v then some v else none
        | none => none }
  if env.failPutItem then
    (.error (.clientError "put_item failed"), st, [.putLedgerItem payload_hash])
  else (.ok (), { st with ledger := item :: st.ledger }, [.putLedgerItem payload_hash])

def extract_price_mods (payload : PyDict) : Except PyErr (Option JVal) :=
  if hasKey payload "products" then
    let products := (dget payload "products").getD .null
    match pyContains "product_variants" products with
    | .error e => .error e
    | .ok false => .ok none
    | .ok true =>
      match pyIndex products "product_variants" with
      | .error e => .error e
      | .ok variants =>
        match variants with
        | .arr (v0 :: _) =>
          match pyContains "price" v0 with
          | .error e => .error e
          | .ok true =>
            match pyIndex v0 "price" with
            | .error e => .error e
            | .ok p => .ok (some p)
          | .ok false => .ok none
        | _ => .ok none
  else .ok none

def event_id_of (env : Env) (payload_hash : String) : String :=
  payload_hash.take 16 ++ "-" ++ toString env.now.epoch

/- ===== lambda handler (phases mirror source sections) ===== -/

inductive HandlerResult where
  | success : (event_id event_type routing_target raw_s3_key payload_hash : String) →
      (store_id : Option JVal) → (product_id : Option String) →
      (metadata_s3_key master_catalog_key store_catalog_key : Option String) → HandlerResult
  | duplicate : (event_id : String) → (original_processing_timestamp : String) → HandlerResult
  | errorResp : (message : String) → HandlerResult
deriving DecidableEq, Repr

def truthyOptJ (o : Option JVal) : Option JVal :=
  match o with
  | some v => if pyTruthy v then some v else none
  | none => none

def truthyOptS (o : Option String) : Option String :=
  match o with
  | some s => if s ≠ "" then some s else none
  | none => none

def phase_bootstrap_store (env : Env) (store_id : Option JVal) (payload : PyDict)
    (event_id : String) (st : Sys) : Sys × List Op :=
  match truthyOptJ store_id with
  | some sv =>
    let r := create_store_if_not_exists env sv payload event_id st
    (r.2.1, r.2.2)
  | none => (st, [])

def phase_bootstrap_product (env : Env) (product_id : Option String) (event_type : String)
    (payload : PyDict) (st : Sys) : Sys × List Op :=
  match truthyOptS product_id with
  | some p =>
    if event_type = "product_create" || event_type = "product_update" ||
       event_type = "product_delete" then
      let r := create_product_if_not_exists env p payload st
      (r.2.1, r.2.2)
    else (st, [])
  | none => (st, [])

def phase_metadata (env : Env) (payload : PyDict) (event_type event_id : String)
    (store_id : Option JVal) (product_id : Option String) (st : Sys) :
    Option String × Sys × List Op :=
  if event_type = "store_create" then
    let r := store_store_metadata env payload event_type event_id store_id product_id st
    ((match r.1 with
      | .ok mk => mk
      | .error _ => none), r.2.1, r.2.2)
  else (none, st, [])

def phase_master_catalog (env : Env) (payload : PyDict) (event_type : String)
    (product_id : Option String) (st : Sys) : Option String × Sys × List Op :=
  if event_type = "product_create" || event_type = "product_update" then
    match truthyOptS product_id with
    | some p =>
      let r := store_to_master_catalog env payload p st
      ((match r.1 with
        | .ok mk => some mk
        | .error _ => none), r.2.1, r.2.2)
    | none => (none, st, [])
  else (none, st, [])

def copy_and_refresh (env : Env) (payload : PyDict) (p2 : String) (sv : JVal) (st : Sys) :
    Option String × Sys × List Op :=
  match extract_price_mods payload with
  | .error _ => (none, st, [])
  | .ok mods =>
    let r := copy_to_store_catalog env p2 sv mods st
    match r.1 with
    | .ok (some sk) =>
      let t := trigger_kb_refresh env sv r.2.1
      (some sk, t.1, r.2.2 ++ t.2)
    | .ok none => (none, r.2.1, r.2.2)
    | .error _ => (none, r.2.1, r.2.2)

def phase_store_catalog (env : Env) (payload : PyDict) (event_type : String)
    (product_id : Option String) (store_id : Option JVal) (st : Sys) :
    Option String × Sys × List Op :=
  if event_type = "product_create" then
    match truthyOptS product_id, truthyOptJ store_id with
    | some p2, some sv => copy_and_refresh env payload p2 sv st
    | _, _ => (none, st, [])
  else if event_type = "product_update" then
    match truthyOptS product_id, truthyOptJ store_id with
    | some p2, some sv => copy_and_refresh env payload p2 sv st
    | _, _ => (none, st, [])
  else if event_type = "product_delete" then
    match truthyOptS product_id, truthyOptJ store_id with
    | some p2, some sv =>
      let d := delete_from_store_catalog p2 sv st
      let t := trigger_kb_refresh env sv d.1
      (none, t.1, d.2 ++ t.2)
    | _, _ => (none, st, [])
  else (none, st, [])

def lambda_handler (env : Env) (st0 : Sys) (raw_payload : PyDict) :
    HandlerResult × Sys × List Op :=
  let payload_hash := calculate_payload_hash (.obj raw_payload)
  match check_idempotency env payload_hash st0 with
  | (some r, t1) => (.duplicate r.event_id r.processing_timestamp, st0, t1)
  | (none, t1) =>
    let event_id := event_id_of env payload_hash
    match detect_event_type raw_payload with
    | .error e => (.errorResp (pyErrMsg e), st0, t1)
    | .ok event_type =>
      let store_id := get_store_id raw_payload
      let product_id := get_product_id raw_payload
      let b1 := phase_bootstrap_store env store_id raw_payload event_id st0
      let b2 := phase_bootstrap_product env product_id event_type raw_payload b1.1
      let r3 := store_raw_payload env raw_payload event_type event_id store_id b2.1
      match r3.1 with
      | .error e => (.errorResp (pyErrMsg e), r3.2.1, t1 ++ b1.2 ++ b2.2 ++ r3.2.2)
      | .ok raw_s3_key =>
        let m4 := phase_metadata env raw_payload event_type event_id store_id product_id r3.2.1
        let m5 := phase_master_catalog env raw_payload event_type product_id m4.2.1
        let m6 := phase_store_catalog env raw_payload event_type product_id store_id m5.2.1
        let routing_target := get_routing_target event_type
        let r7 := register_event env payload_hash event_id event_type raw_s3_key
                    routing_target store_id m6.2.1
        let trace := t1 ++ b1.2 ++ b2.2 ++ r3.2.2 ++ m4.2.2 ++ m5.2.2 ++ m6.2.2 ++ r7.2.2
        match r7.1 with
        | .error e => (.errorResp (pyErrMsg e), r7.2.1, trace)
        | .ok _ =>
          (.success event_id event_type routing_target raw_s3_key payload_hash
             (truthyOptJ store_id) (truthyOptS product_id)
             (truthyOptS m4.1) (truthyOptS m5.1) (truthyOptS m6.1),
           r7.2.1, trace)

def emptySys : Sys := ⟨[], [], [], []⟩

def testClock : Clock := ⟨"2026", "10", "12", "2026-10-12T00:00:00Z", 1791072000⟩

def testEnv : Env := ⟨testClock, some "kb-topic", [], false, false⟩

def newProductPayload : PyDict :=
  [("event_type", .str "new_product"),
   ("products", .obj
     [("name", .str "New Product"),
      ("product_id", .str "p1"),
      ("store_id", .str "s1"),
      ("product_variants", .arr [.obj [("price", .num 1999)]])])]

/- canonical fixture (EXACT_SCHEMA from tests; float prices modeled as scaled integers) -/
def exactSchemaFixture : JVal :=
  .obj [("products", .obj
    [("id", .str "123e4567-e89b-12d3-a456-426614174000"),
     ("name", .str "Test Product"),
     ("description", .str "Test Description"),
     ("dosage_instructions", .str "Take with food"),
     ("manufacturer", .str "Test Manufacturer"),
     ("needs_prescription", .bool false),
     ("needs_telemed", .bool true),
     ("store_id", .str "223e4567-e89b-12d3-a456-426614174000"),
     ("user_id", .str "323e4567-e89b-12d3-a456-426614174000"),
     ("category_ids", .arr [.str "423e4567-e89b-12d3-a456-426614174000"]),
     ("status", .str "active"),
     ("created_at", .str "2024-01-01T00:00:00Z"),
     ("updated_at", .str "2024-01-02T00:00:00Z"),
     ("archived_at", .null),
     ("product_variants", .arr [.obj
       [("id", .str "523e4567-e89b-12d3-a456-426614174000"),
        ("product_id", .str "123e4567-e89b-12d3-a456-426614174000"),
        ("name", .str "Variant 1"),
        ("variant_name", .str "Standard"),
        ("price", .num 2999),
        ("image_url", .str "https://example.com/image.jpg"),
        ("sku", .str "TEST-SKU-001"),
        ("stock_quantity", .num 100),
        ("is_default", .bool true),
        ("stockStatus", .str "In Stock"),
        ("status", .str "NEW"),
        ("archived_at", .null),
        ("lab_test_codes_id", .arr [.str "623e4567-e89b-12d3-a456-426614174000"]),
        ("service_product_id", .str "723e4567-e89b-12d3-a456-426614174000"),
        ("cpr_price", .num 2599)]]),
     ("categories", .arr [.obj
       [("id", .str "823e4567-e89b-12d3-a456-426614174000"),
        ("name", .str "Category 1"),
        ("is_featured", .bool true),
        ("store_id", .str "223e4567-e89b-12d3-a456-426614174000"),
        ("user_id", .str "323e4567-e89b-12d3-a456-426614174000"),
        ("created_at", .str "2024-01-01T00:00:00Z"),
        ("last_modified", .str "2024-01-02T00:00:00Z"),
        ("image", .str "https://example.com/cat.jpg")]])])]

/- ===== theorems: function level ===== -/

def exceptOk {ε α : Type} : Except ε α → Bool
  | .ok _ => true
  | .error _ => false

/- ===== C4: duplicate suppression ===== -/

def HandlerResult.isSuccess : HandlerResult → Bool
  | .success .. => true
  | _ => false

/- ===== C1: processed-artifact never written; raw artifact persisted ===== -/

def okProcessedPut (op : Op) : Prop :=
  ∀ k, op = Op.putObj Bucket.processed k →
    (∃ r, k = "master/products/" ++ r) ∨ (∃ r, k = "stores/" ++ r)

/- ===== C3: master-write failure does not short-circuit propagation ===== -/

def c3Env : Env :=
  { now := testClock, kbTopic := some "kb-topic",
    failPuts := [(Bucket.processed, "master/products/p1.json")],
    failPutItem := false, failQuery := false }

def staleMaster : JVal :=
  .obj [("products", .obj [("id", .str "p1"), ("name", .str "Old"),
    ("product_variants", .arr [.obj [("price", .num 10)]])])]

def c3St0 : Sys := ⟨[], [("master/products/p1.json", staleMaster)], [], []⟩

/- ===== C8: store-catalog propagation content ===== -/

def first_variant_price (payload : PyDict) : Option JVal :=
  match dget payload "products" with
  | some (.obj pf) =>
    match dget pf "product_variants" with
    | some (.arr (JVal.obj f0 :: _)) => dget f0 "price"
    | _ => none
  | _ => none

def store_copy_spec (payload : PyDict) (store_id : JVal) : JVal :=
  match dget payload "products" with
  | some (.obj pf) =>
    let pf1 :=
      match first_variant_price payload with
      | some pr =>
        if pyTruthy pr then
          match dget pf "product_variants" with
          | some (.arr vs) =>
            assocSet pf "product_variants"
              (.arr (vs.map fun x =>
                match x with
                | .obj f => .obj (assocSet f "price" pr)
                | other => other))
          | _ => pf
        else pf
      | none => pf
    .obj (assocSet payload "products" (.obj (assocSet pf1 "store_id" store_id)))
  | _ => .obj payload

def c8Payload : PyDict :=
  [("event_type", .str "new_product"),
   ("products", .obj
     [("name", .str "Zero Priced"),
      ("product_id", .str "p9"),
      ("store_id", .str "s1"),
      ("product_variants", .arr [.obj [("price", .num 0)], .obj [("price", .num 10)]])])]

/-- C5 code bug: strip_fields fails with a TypeError on a products dict holding a numeric field, because the guard iterates over the dict values and asks membership in a number; redaction is not total, diverging from the spec claim that stripping always succeeds. -/
theorem c5_strip_crash :
    strip_fields (.obj [("products", .obj [("price", .num 5)])]) =
      .error (.typeError "argument is not iterable") := rfl

/-- C6 counterexample: strip_fields is not idempotent: on this payload both the first and second pass succeed, yet the second pass strips further fields because the first pass makes the products guard condition flip. -/
theorem c6_cex :
    (strip_fields cNonIdem).bind strip_fields ≠ strip_fields cNonIdem ∧
    exceptOk (strip_fields cNonIdem) = true ∧
    exceptOk ((strip_fields cNonIdem).bind strip_fields) = true := by decide

/-- C6 (amended): on the canonical exact-schema fixture strip_fields succeeds and a second pass is the identity. -/
theorem c6_amended :
    (strip_fields exactSchemaFixture).bind strip_fields = strip_fields exactSchemaFixture ∧
    exceptOk (strip_fields exactSchemaFixture) = true := by decide

/-- C2 counterexample: a payload whose products entry is a string makes detect_event_type fail with an AttributeError, so classification is not total. -/
theorem c2_cex :
    detect_event_type [("products", .str "foo")] =
      .error (.attributeError "object has no attribute get") := rfl

/-- C2 (amended): classification never raises on payloads whose products entry is absent or is a dict: detect_event_type returns an ok result, and that result is either one of the seven canonical event types or the alias normalization of a non-empty explicit string event_type tag (which is the tag itself when unlisted); a payload with no tag and none of the recognized shapes classifies as unknown rather than failing. -/
theorem c2_amended :
    (∀ (payload : PyDict) (pf : PyDict), dget payload "products" = some (.obj pf) →
        ∃ s, detect_event_type payload = .ok s ∧
          (s ∈ canonical_event_types ∨
           ∃ t, dget payload "event_type" = some (.str t) ∧ t ≠ "" ∧
             s = normalize_event_type t))
  ∧ (∀ payload : PyDict, dget payload "products" = none →
        ∃ s, detect_event_type payload = .ok s ∧
          (s ∈ canonical_event_types ∨
           ∃ t, dget payload "event_type" = some (.str t) ∧ t ≠ "" ∧
             s = normalize_event_type t))
  ∧ (∀ payload : PyDict, dget payload "event_type" = none → dget payload "products" = none →
        dget payload "store_id" = none → detect_event_type payload = .ok "unknown") := by
  refine ⟨?_, ?_, ?_⟩
  · intro payload pf hp
    unfold detect_event_type
    rcases hev : dget payload "event_type" with _ | v
    · simp only [hev, hp]
      repeat' split
      all_goals exact ⟨_, rfl, Or.inl (by decide)⟩
    · rcases v with _ | b | n | s | xs | fs
      all_goals simp only [hev, hp]
      · repeat' split
        all_goals exact ⟨_, rfl, Or.inl (by decide)⟩
      · repeat' split
        all_goals exact ⟨_, rfl, Or.inl (by decide)⟩
      · repeat' split
        all_goals exact ⟨_, rfl, Or.inl (by decide)⟩
      · by_cases hs : s = ""
        · rw [if_neg (fun hn => hn hs)]
          repeat' split
          all_goals first
            | contradiction
            | exact ⟨_, rfl, Or.inl (by decide)⟩
        · rw [if_pos hs]
          exact ⟨_, rfl, Or.inr ⟨s, rfl, hs, rfl⟩⟩
      · repeat' split
        all_goals exact ⟨_, rfl, Or.inl (by decide)⟩
      · repeat' split
        all_goals exact ⟨_, rfl, Or.inl (by decide)⟩
  · intro payload hp
    unfold detect_event_type
    rcases hev : dget payload "event_type" with _ | v
    · simp only [hev, hp]
      repeat' split
      all_goals exact ⟨_, rfl, Or.inl (by decide)⟩
    · rcases v with _ | b | n | s | xs | fs
      all_goals simp only [hev, hp]
      · repeat' split
        all_goals exact ⟨_, rfl, Or.inl (by decide)⟩
      · repeat' split
        all_goals exact ⟨_, rfl, Or.inl (by decide)⟩
      · repeat' split
        all_goals exact ⟨_, rfl, Or.inl (by decide)⟩
      · by_cases hs : s = ""
        · rw [if_neg (fun hn => hn hs)]
          repeat' split
          all_goals first
            | contradiction
            | exact ⟨_, rfl, Or.inl (by decide)⟩
        · rw [if_pos hs]
          exact ⟨_, rfl, Or.inr ⟨s, rfl, hs, rfl⟩⟩
      · repeat' split
        all_goals exact ⟨_, rfl, Or.inl (by decide)⟩
      · repeat' split
        all_goals exact ⟨_, rfl, Or.inl (by decide)⟩
  · intro payload hev hp hsid
    unfold detect_event_type
    simp only [hev, hp, hsid]

/-- C7 (amended): a non-empty explicit string event_type tag always wins: detect_event_type returns its alias normalization, and the alias table maps each documented legacy name to its canonical event type and leaves unlisted names unchanged. -/
theorem c7_amended :
    (∀ (payload : PyDict) (s : String), dget payload "event_type" = some (.str s) → s ≠ "" →
        detect_event_type payload = .ok (normalize_event_type s))
  ∧ normalize_event_type "product_deletion" = "product_delete"
  ∧ normalize_event_type "new_product" = "product_create"
  ∧ normalize_event_type "new_store" = "store_create"
  ∧ normalize_event_type "deleted_store" = "store_delete"
  ∧ normalize_event_type "updated_store" = "store_update"
  ∧ normalize_event_type "product_update" = "product_update"
  ∧ normalize_event_type "anything_else" = "anything_else" := by
  refine ⟨?_, by decide, by decide, by decide, by decide, by decide, by decide, by decide⟩
  intro payload s hev hs
  unfold detect_event_type
  simp only [hev, ne_eq, hs, not_false_iff, if_true]

/-- C7 witness: c7_amended applied to a payload with explicit tag product_deletion and a deletion-shaped body, classifying as product_delete. -/
theorem c7_witness :
    detect_event_type
      [("event_type", .str "product_deletion"),
       ("products", .obj [("id", .str "x"), ("archived_at", .str "2024-01-01T00:00:00Z")])] =
      .ok "product_delete" := by
  have h := c7_amended.1
    [("event_type", .str "product_deletion"),
     ("products", .obj [("id", .str "x"), ("archived_at", .str "2024-01-01T00:00:00Z")])]
    "product_deletion" (by decide) (by decide)
  simpa using h

/-- C7 counterexample: an empty explicit event_type tag is ignored and the payload falls through to structural inference, here classifying as store_update. -/
theorem c7_cex :
    detect_event_type [("event_type", .str ""), ("store_id", .str "s1")] = .ok "store_update" ∧
    normalize_event_type "" = "" ∧ ("store_update" : String) ≠ "" := by decide

/-- C10: get_product_id returns none when products is absent or not a dict, prefers product_id over id, falls back to id, and stringifies values with the Python str conversion, so numeric ids become digit strings. -/
theorem c10_get_product_id :
    (∀ payload : PyDict, dget payload "products" = none → get_product_id payload = none)
  ∧ (∀ (payload : PyDict) (v : JVal), dget payload "products" = some v → isDictB v = false →
        get_product_id payload = none)
  ∧ (∀ (payload : PyDict) (pf : PyDict) (v : JVal), dget payload "products" = some (.obj pf) →
        dget pf "product_id" = some v → get_product_id payload = some (pyStr v))
  ∧ (∀ (payload : PyDict) (pf : PyDict) (v : JVal), dget payload "products" = some (.obj pf) →
        dget pf "product_id" = none → dget pf "id" = some v →
        get_product_id payload = some (pyStr v))
  ∧ get_product_id [("products", .obj [("id", .num 123)])] = some "123"
  ∧ (∀ n : Int, pyStr (.num n) = toString n) := by
  refine ⟨?_, ?_, ?_, ?_, by decide, fun n => rfl⟩
  · intro payload hp
    unfold get_product_id
    simp [hp]
  · intro payload v hp hd
    unfold get_product_id
    rcases v with _ | b | n | s | xs | fs <;> simp_all [isDictB, hp]
  · intro payload pf v hp hpid
    unfold get_product_id
    simp [hp, hpid]
  · intro payload pf v hp hpid hid
    unfold get_product_id
    simp [hp, hpid, hid]

/-- C10 witness: c10_get_product_id applied to a dict carrying both product_id and id, preferring product_id. -/
theorem c10_witness :
    get_product_id
      [("products", .obj [("product_id", .str "p9"), ("id", .str "ignored")])] = some "p9" := by
  have h := c10_get_product_id.2.2.1
    [("products", .obj [("product_id", .str "p9"), ("id", .str "ignored")])]
    [("product_id", .str "p9"), ("id", .str "ignored")] (.str "p9") (by decide) (by decide)
  simpa using h

/- ===== hashing lemmas ===== -/

theorem insertPair_perm (p : String × JVal) (l : PyDict) : List.Perm (insertPair p l) (p :: l) := by
  induction l with
  | nil => simp [insertPair]
  | cons q t ih =>
    unfold insertPair
    by_cases h : p.1 ≤ q.1
    · simp [h]
    · simp only [h, if_false]
      exact (ih.cons q).trans (List.Perm.swap p q t)

theorem sortPairs_perm (l : PyDict) : List.Perm (sortPairs l) l := by
  induction l with
  | nil => simp [sortPairs]
  | cons p t ih =>
    unfold sortPairs
    exact (insertPair_perm p (sortPairs t)).trans (ih.cons p)

theorem insertPair_sorted (p : String × JVal) {l : PyDict} (h : l.Sorted keyLE) :
    (insertPair p l).Sorted keyLE := by
  induction l with
  | nil => simp [insertPair]
  | cons q t ih =>
    unfold insertPair
    by_cases hle : p.1 ≤ q.1
    · simp only [hle, if_true]
      rw [List.sorted_cons]
      refine ⟨?_, h⟩
      intro b hb
      rcases List.mem_cons.mp hb with hb | hb
      · subst hb; exact hle
      · exact le_trans hle ((List.sorted_cons.mp h).1 b hb)
    · simp only [hle, if_false]
      rw [List.sorted_cons]
      refine ⟨?_, ih (List.sorted_cons.mp h).2⟩
      intro b hb
      have hb2 : b ∈ p :: t := (insertPair_perm p t).mem_iff.mp hb
      rcases List.mem_cons.mp hb2 with hb2 | hb2
      · subst hb2; exact le_of_not_le hle
      · exact (List.sorted_cons.mp h).1 b hb2

theorem sortPairs_sorted (l : PyDict) : (sortPairs l).Sorted keyLE := by
  induction l with
  | nil => simp [sortPairs]
  | cons p t ih => exact insertPair_sorted p ih

theorem eq_of_perm_sorted_nodup : ∀ {l1 l2 : PyDict}, List.Perm l1 l2 →
    l1.Sorted keyLE → l2.Sorted keyLE → (l1.map Prod.fst).Nodup → l1 = l2 := by
  intro l1
  induction l1 with
  | nil =>
    intro l2 hp _ _ _
    exact (List.Perm.nil_eq hp).symm ▸ rfl
  | cons a t1 ih =>
    intro l2 hp hs1 hs2 hnd
    cases l2 with
    | nil => cases hp.eq_nil
    | cons b t2 =>
      have hab : a = b := by
        by_contra hne
        have hb1 : b ∈ a :: t1 := hp.mem_iff.mpr (List.mem_cons_self b t2)
        have hbt1 : b ∈ t1 := by
          rcases List.mem_cons.mp hb1 with h | h
          · exact absurd h.symm hne
          · exact h
        have ha2 : a ∈ b :: t2 := hp.mem_iff.mp (List.mem_cons_self a t1)
        have hat2 : a ∈ t2 := by
          rcases List.mem_cons.mp ha2 with h | h
          · exact absurd h hne
          · exact h
        have h1 : a.1 ≤ b.1 := (List.sorted_cons.mp hs1).1 b hbt1
        have h2 : b.1 ≤ a.1 := (List.sorted_cons.mp hs2).1 a hat2
        have heq : a.1 = b.1 := le_antisymm h1 h2
        have : a.1 ∈ t1.map Prod.fst := List.mem_map.mpr ⟨b, hbt1, heq.symm⟩
        simp only [List.map_cons, List.nodup_cons] at hnd
        exact hnd.1 this
      subst hab
      have hp' : List.Perm t1 t2 := hp.cons_inv
      have : t1 = t2 := by
        apply ih hp' (List.sorted_cons.mp hs1).2 (List.sorted_cons.mp hs2).2
        simp only [List.map_cons, List.nodup_cons] at hnd
        exact hnd.2
      rw [this]

theorem sortPairs_eq_of_perm {l1 l2 : PyDict} (h : List.Perm l1 l2)
    (hnd : (l1.map Prod.fst).Nodup) : sortPairs l1 = sortPairs l2 := by
  apply eq_of_perm_sorted_nodup
    ((sortPairs_perm l1).trans (h.trans (sortPairs_perm l2).symm))
    (sortPairs_sorted l1) (sortPairs_sorted l2)
  exact (((sortPairs_perm l1).map Prod.fst).nodup_iff).mpr hnd

theorem normalizePairs_map (l : PyDict) :
    normalizePairs l = l.map (fun p => (p.1, normalizeKeys p.2)) := by
  induction l with
  | nil => rfl
  | cons p t ih =>
    cases p with
    | mk k v => simp [normalizePairs, ih]

theorem hexDigit_mem (n : Nat) : hexDigit n ∈ ("0123456789abcdef").data := by
  unfold hexDigit
  rcases Nat.lt_or_ge n 16 with h | h
  · interval_cases n <;> decide
  · have hlen : ("0123456789abcdef").toList.length ≤ n := by simpa using h
    rw [List.getD_eq_default _ _ hlen]
    decide

theorem hexWord_mem {c : Char} {w : Nat} (h : c ∈ hexWord w) :
    c ∈ ("0123456789abcdef").data := by
  unfold hexWord at h
  simp only [List.mem_cons, List.not_mem_nil, or_false] at h
  rcases h with h | h | h | h | h | h | h | h <;> (subst h; exact hexDigit_mem _)

theorem digestHex_length (h8 : Hash8) : (digestHex h8).length = 64 := rfl

theorem digestHex_chars {c : Char} (h8 : Hash8) (h : c ∈ (digestHex h8).data) :
    c ∈ ("0123456789abcdef").data := by
  unfold digestHex at h
  have h2 : c ∈ hexWord h8.a ++ hexWord h8.b ++ hexWord h8.c ++ hexWord h8.d ++
      hexWord h8.e ++ hexWord h8.f ++ hexWord h8.g ++ hexWord h8.hh := h
  simp only [List.mem_append] at h2
  rcases h2 with ((((((h2 | h2) | h2) | h2) | h2) | h2) | h2) | h2 <;> exact hexWord_mem h2

theorem hash_eq_of_normalize_eq (p q : JVal) (h : normalizeKeys p = normalizeKeys q) :
    calculate_payload_hash p = calculate_payload_hash q := by
  unfold calculate_payload_hash jsonDumpsSorted
  rw [h]

theorem hash_perm_keys (fs gs : PyDict) (hperm : List.Perm fs gs)
    (hnd : (fs.map Prod.fst).Nodup) :
    calculate_payload_hash (.obj fs) = calculate_payload_hash (.obj gs) := by
  apply hash_eq_of_normalize_eq
  show JVal.obj (sortPairs (normalizePairs fs)) = JVal.obj (sortPairs (normalizePairs gs))
  congr 1
  apply sortPairs_eq_of_perm
  · rw [normalizePairs_map, normalizePairs_map]
    exact hperm.map _
  · rw [normalizePairs_map]
    have hmf : (fs.map fun p => (p.1, normalizeKeys p.2)).map Prod.fst = fs.map Prod.fst := by
      rw [List.map_map]
      rfl
    rw [hmf]
    exact hnd

set_option maxRecDepth 100000 in
/-- C9: calculate_payload_hash is invariant under normalization equality and under key reordering of objects with distinct keys, is sensitive to array element order, and always yields a 64-character lowercase hex digest. -/
theorem c9_hash_spec :
    (∀ p q : JVal, normalizeKeys p = normalizeKeys q →
        calculate_payload_hash p = calculate_payload_hash q)
  ∧ (∀ fs gs : PyDict, List.Perm fs gs → (fs.map Prod.fst).Nodup →
        calculate_payload_hash (.obj fs) = calculate_payload_hash (.obj gs))
  ∧ calculate_payload_hash (.obj [("a", .num 1), ("b", .num 2)]) =
      calculate_payload_hash (.obj [("b", .num 2), ("a", .num 1)])
  ∧ calculate_payload_hash (.arr [.num 1, .num 2]) ≠
      calculate_payload_hash (.arr [.num 2, .num 1])
  ∧ (∀ p : JVal, (calculate_payload_hash p).length = 64 ∧
        ∀ c ∈ (calculate_payload_hash p).data, c ∈ ("0123456789abcdef").data) := by
  refine ⟨hash_eq_of_normalize_eq, hash_perm_keys, ?_, by decide, ?_⟩
  · exact hash_perm_keys [("a", .num 1), ("b", .num 2)] [("b", .num 2), ("a", .num 1)]
      (by decide) (by decide)
  · intro p
    unfold calculate_payload_hash sha256hex
    exact ⟨digestHex_length _, fun c hc => digestHex_chars _ hc⟩

/-- C9 witness: c9_hash_spec applied to a concrete pair of key-reordered objects. -/
theorem c9_witness :
    calculate_payload_hash (.obj [("x", .null), ("y", .num 3)]) =
      calculate_payload_hash (.obj [("y", .num 3), ("x", .null)]) :=
  c9_hash_spec.2.1 [("x", .null), ("y", .num 3)] [("y", .num 3), ("x", .null)]
    (by decide) (by decide)

/- ===== handler lemmas: ledger preservation ===== -/

theorem bucketPut_ledger (st : Sys) (b : Bucket) (k : String) (v : JVal) :
    (bucketPut st b k v).ledger = st.ledger := by
  cases b <;> rfl

theorem put_object_ledger (env : Env) (b : Bucket) (key : String) (body : JVal) (st : Sys) :
    ((put_object env b key body st).2.1).ledger = st.ledger := by
  unfold put_object
  split
  · rfl
  · exact bucketPut_ledger st b key body

theorem create_store_ledger (env : Env) (sid : JVal) (p : PyDict) (eid : String) (st : Sys) :
    ((create_store_if_not_exists env sid p eid st).2.1).ledger = st.ledger := by
  unfold create_store_if_not_exists
  repeat' split
  all_goals first
    | rfl
    | exact put_object_ledger _ _ _ _ _

theorem create_product_ledger (env : Env) (pid : String) (p : PyDict) (st : Sys) :
    ((create_product_if_not_exists env pid p st).2.1).ledger = st.ledger := by
  unfold create_product_if_not_exists
  repeat' split
  all_goals first
    | rfl
    | exact put_object_ledger _ _ _ _ _

theorem store_raw_ledger (env : Env) (p : PyDict) (et eid : String) (sid : Option JVal)
    (st : Sys) : ((store_raw_payload env p et eid sid st).2.1).ledger = st.ledger := by
  unfold store_raw_payload
  repeat' split
  all_goals first
    | rfl
    | exact put_object_ledger _ _ _ _ _

theorem store_store_metadata_ledger (env : Env) (p : PyDict) (et eid : String)
    (sid : Option JVal) (pid : Option String) (st : Sys) :
    ((store_store_metadata env p et eid sid pid st).2.1).ledger = st.ledger := by
  unfold store_store_metadata
  repeat' split
  all_goals first
    | rfl
    | exact put_object_ledger _ _ _ _ _

theorem store_to_master_ledger (env : Env) (p : PyDict) (pid : String) (st : Sys) :
    ((store_to_master_catalog env p pid st).2.1).ledger = st.ledger := by
  unfold store_to_master_catalog
  repeat' split
  all_goals first
    | rfl
    | exact put_object_ledger _ _ _ _ _

theorem copy_to_store_ledger (env : Env) (pid : String) (sid : JVal) (m : Option JVal)
    (st : Sys) : ((copy_to_store_catalog env pid sid m st).2.1).ledger = st.ledger := by
  unfold copy_to_store_catalog
  dsimp only
  repeat' split
  all_goals first
    | rfl
    | exact put_object_ledger _ _ _ _ _

theorem delete_from_store_ledger (pid : String) (sid : JVal) (st : Sys) :
    ((delete_from_store_catalog pid sid st).1).ledger = st.ledger := rfl

theorem trigger_kb_ledger (env : Env) (sid : JVal) (st : Sys) :
    ((trigger_kb_refresh env sid st).1).ledger = st.ledger := by
  unfold trigger_kb_refresh
  split <;> rfl

theorem phase_bootstrap_store_ledger (env : Env) (sid : Option JVal) (p : PyDict)
    (eid : String) (st : Sys) :
    ((phase_bootstrap_store env sid p eid st).1).ledger = st.ledger := by
  unfold phase_bootstrap_store
  repeat' split
  all_goals first
    | rfl
    | exact create_store_ledger _ _ _ _ _

theorem phase_bootstrap_product_ledger (env : Env) (pid : Option String) (et : String)
    (p : PyDict) (st : Sys) :
    ((phase_bootstrap_product env pid et p st).1).ledger = st.ledger := by
  unfold phase_bootstrap_product
  repeat' split
  all_goals first
    | rfl
    | exact create_product_ledger _ _ _ _

theorem phase_metadata_ledger (env : Env) (p : PyDict) (et eid : String)
    (sid : Option JVal) (pid : Option String) (st : Sys) :
    ((phase_metadata env p et eid sid pid st).2.1).ledger = st.ledger := by
  unfold phase_metadata
  repeat' split
  all_goals first
    | rfl
    | exact store_store_metadata_ledger _ _ _ _ _ _ _

theorem phase_master_ledger (env : Env) (p : PyDict) (et : String) (pid : Option String)
    (st : Sys) : ((phase_master_catalog env p et pid st).2.1).ledger = st.ledger := by
  unfold phase_master_catalog
  repeat' split
  all_goals first
    | rfl
    | exact store_to_master_ledger _ _ _ _

theorem copy_and_refresh_ledger (env : Env) (p : PyDict) (p2 : String) (sv : JVal)
    (st : Sys) : ((copy_and_refresh env p p2 sv st).2.1).ledger = st.ledger := by
  unfold copy_and_refresh
  dsimp only
  repeat' split
  all_goals first
    | rfl
    | exact copy_to_store_ledger _ _ _ _ _
    | exact (trigger_kb_ledger _ _ _).trans (copy_to_store_ledger _ _ _ _ _)

theorem phase_store_catalog_ledger (env : Env) (p : PyDict) (et : String)
    (pid : Option String) (sid : Option JVal) (st : Sys) :
    ((phase_store_catalog env p et pid sid st).2.1).ledger = st.ledger := by
  unfold phase_store_catalog
  dsimp only
  repeat' split
  all_goals first
    | rfl
    | exact copy_and_refresh_ledger _ _ _ _ _
    | exact (trigger_kb_ledger _ _ _).trans (delete_from_store_ledger _ _ _)

theorem check_idempotency_ops (env : Env) (h : String) (st : Sys) :
    (check_idempotency env h st).2 = [.queryLedger h] := by
  unfold check_idempotency
  split <;> rfl

theorem lambda_handler_dup (env : Env) (st : Sys) (payload : PyDict) (r : LedgerItem)
    (h : (check_idempotency env (calculate_payload_hash (.obj payload)) st).1 = some r) :
    lambda_handler env st payload =
      (.duplicate r.event_id r.processing_timestamp, st,
       [.queryLedger (calculate_payload_hash (.obj payload))]) := by
  have h2 := check_idempotency_ops env (calculate_payload_hash (.obj payload)) st
  have hpair : check_idempotency env (calculate_payload_hash (.obj payload)) st =
      (some r, [.queryLedger (calculate_payload_hash (.obj payload))]) := by
    rw [← h, ← h2]
  unfold lambda_handler
  dsimp only
  rw [hpair]

theorem register_event_ledger (env : Env) (ph eid et sk rt : String) (sid : Option JVal)
    (st : Sys) (a : Unit) (h : (register_event env ph eid et sk rt sid st).1 = .ok a) :
    ∃ item, (register_event env ph eid et sk rt sid st).2.1.ledger = item :: st.ledger ∧
      item.payload_hash = ph := by
  unfold register_event at h ⊢
  dsimp only at h ⊢
  by_cases hfp : env.failPutItem = true
  · rw [if_pos hfp] at h
    simp at h
  · rw [if_neg hfp] at h ⊢
    exact ⟨_, rfl, rfl⟩

theorem lambda_handler_success_ledger (env : Env) (st : Sys) (p : PyDict)
    (hs : (lambda_handler env st p).1.isSuccess = true) :
    ∃ item : LedgerItem, (lambda_handler env st p).2.1.ledger = item :: st.ledger ∧
      item.payload_hash = calculate_payload_hash (.obj p) := by
  rcases hrun : lambda_handler env st p with ⟨res, st', tr⟩
  rw [hrun] at hs
  unfold lambda_handler at hrun
  dsimp only at hrun
  split at hrun
  · rename_i r t1 heq
    cases hrun
    simp [HandlerResult.isSuccess] at hs
  · rename_i t1 heq
    split at hrun
    · cases hrun
      simp [HandlerResult.isSuccess] at hs
    · rename_i event_type hdet
      split at hrun
      · cases hrun
        simp [HandlerResult.isSuccess] at hs
      · rename_i raw_s3_key hraw
        split at hrun
        · cases hrun
          simp [HandlerResult.isSuccess] at hs
        · rename_i a hreg
          cases hrun
          obtain ⟨item, hl, hp⟩ := register_event_ledger _ _ _ _ _ _ _ _ a hreg
          refine ⟨item, ?_, hp⟩
          rw [hl]
          congr 1
          rw [phase_store_catalog_ledger, phase_master_ledger, phase_metadata_ledger,
              store_raw_ledger, phase_bootstrap_product_ledger, phase_bootstrap_store_ledger]

/-- C4: a payload whose hash is already in the ledger short-circuits to a duplicate response carrying the recorded event id and timestamp with no state change and only the ledger query in the trace; and a successful run registers exactly one ledger item for the hash, so an immediate replay of the same payload is suppressed and leaves the state unchanged. -/
theorem c4_duplicate_suppression :
    (∀ (env : Env) (st : Sys) (payload : PyDict) (r : LedgerItem),
       (check_idempotency env (calculate_payload_hash (.obj payload)) st).1 = some r →
       lambda_handler env st payload =
         (.duplicate r.event_id r.processing_timestamp, st,
          [.queryLedger (calculate_payload_hash (.obj payload))]))
  ∧ (∀ (env1 env2 : Env) (st0 : Sys) (payload : PyDict),
       st0.ledger.countP
         (fun i => i.payload_hash == calculate_payload_hash (.obj payload)) = 0 →
       env2.failQuery = false →
       (lambda_handler env1 st0 payload).1.isSuccess = true →
       (∃ eid ts,
          (lambda_handler env2 (lambda_handler env1 st0 payload).2.1 payload).1 =
            .duplicate eid ts)
       ∧ (lambda_handler env2 (lambda_handler env1 st0 payload).2.1 payload).2.1 =
           (lambda_handler env1 st0 payload).2.1
       ∧ ((lambda_handler env1 st0 payload).2.1).ledger.countP
           (fun i => i.payload_hash == calculate_payload_hash (.obj payload)) = 1) := by
  refine ⟨fun env st payload r h => lambda_handler_dup env st payload r h, ?_⟩
  intro env1 env2 st0 payload hclean hq2 hsucc
  obtain ⟨item, hl, hp⟩ := lambda_handler_success_ledger env1 st0 payload hsucc
  have hfind : (check_idempotency env2 (calculate_payload_hash (.obj payload))
      (lambda_handler env1 st0 payload).2.1).1 = some item := by
    unfold check_idempotency
    rw [if_neg (by simp [hq2])]
    dsimp only
    rw [hl, List.find?_cons_of_pos]
    simp [hp]
  have hdup := lambda_handler_dup env2 (lambda_handler env1 st0 payload).2.1 payload item hfind
  refine ⟨⟨item.event_id, item.processing_timestamp, by rw [hdup]⟩, by rw [hdup], ?_⟩
  rw [hl, List.countP_cons_of_pos]
  · rw [hclean]
  · simp [hp]

set_option maxRecDepth 200000 in
/-- C4 witness: c4_duplicate_suppression applied to a concrete run-then-replay of one payload. -/
theorem c4_witness :
    (∃ eid ts,
       (lambda_handler testEnv (lambda_handler testEnv emptySys [("a", .num 1)]).2.1
         [("a", .num 1)]).1 = .duplicate eid ts)
    ∧ (lambda_handler testEnv (lambda_handler testEnv emptySys [("a", .num 1)]).2.1
         [("a", .num 1)]).2.1 = (lambda_handler testEnv emptySys [("a", .num 1)]).2.1
    ∧ ((lambda_handler testEnv emptySys [("a", .num 1)]).2.1).ledger.countP
        (fun i => i.payload_hash == calculate_payload_hash (.obj [("a", .num 1)])) = 1 :=
  c4_duplicate_suppression.2 testEnv testEnv emptySys [("a", .num 1)]
    (by decide) (by decide) (by decide)

theorem check_idempotency_opsOk (env : Env) (h : String) (st : Sys) :
    ∀ op ∈ (check_idempotency env h st).2, okProcessedPut op := by
  intro op hop k hk
  subst hk
  unfold check_idempotency at hop
  split at hop <;> simp_all

theorem create_store_opsOk (env : Env) (sid : JVal) (p : PyDict) (eid : String) (st : Sys) :
    ∀ op ∈ (create_store_if_not_exists env sid p eid st).2.2, okProcessedPut op := by
  intro op hop k hk
  subst hk
  unfold create_store_if_not_exists check_store_exists put_object at hop
  dsimp only at hop
  repeat' split at hop
  all_goals simp_all

theorem create_product_opsOk (env : Env) (pid : String) (p : PyDict) (st : Sys) :
    ∀ op ∈ (create_product_if_not_exists env pid p st).2.2, okProcessedPut op := by
  intro op hop k hk
  subst hk
  unfold create_product_if_not_exists check_product_exists put_object at hop
  dsimp only at hop
  repeat' split at hop
  all_goals simp_all
  all_goals (left; exact ⟨pid ++ ".json", by rw [String.append_assoc]⟩)

theorem store_raw_opsOk (env : Env) (p : PyDict) (et eid : String) (sid : Option JVal)
    (st : Sys) : ∀ op ∈ (store_raw_payload env p et eid sid st).2.2, okProcessedPut op := by
  intro op hop k hk
  subst hk
  unfold store_raw_payload put_object at hop
  dsimp only at hop
  repeat' split at hop
  all_goals simp_all

theorem store_store_metadata_opsOk (env : Env) (p : PyDict) (et eid : String)
    (sid : Option JVal) (pid : Option String) (st : Sys) :
    ∀ op ∈ (store_store_metadata env p et eid sid pid st).2.2, okProcessedPut op := by
  intro op hop k hk
  subst hk
  unfold store_store_metadata put_object at hop
  dsimp only at hop
  repeat' split at hop
  all_goals simp_all

theorem store_to_master_opsOk (env : Env) (p : PyDict) (pid : String) (st : Sys) :
    ∀ op ∈ (store_to_master_catalog env p pid st).2.2, okProcessedPut op := by
  intro op hop k hk
  subst hk
  unfold store_to_master_catalog put_object at hop
  dsimp only at hop
  repeat' split at hop
  all_goals simp_all
  all_goals (left; exact ⟨pid ++ ".json", by rw [String.append_assoc]⟩)

theorem copy_to_store_opsOk (env : Env) (pid : String) (sid : JVal) (m : Option JVal)
    (st : Sys) : ∀ op ∈ (copy_to_store_catalog env pid sid m st).2.2, okProcessedPut op := by
  intro op hop k hk
  subst hk
  unfold copy_to_store_catalog put_object at hop
  dsimp only at hop
  repeat' split at hop
  all_goals simp_all
  all_goals right
  all_goals exact ⟨pyStr sid ++ ("/products/" ++ (pid ++ ".json")),
    by rw [String.append_assoc, String.append_assoc, String.append_assoc]⟩

theorem delete_from_store_opsOk (pid : String) (sid : JVal) (st : Sys) :
    ∀ op ∈ (delete_from_store_catalog pid sid st).2, okProcessedPut op := by
  intro op hop k hk
  subst hk
  unfold delete_from_store_catalog at hop
  dsimp only at hop
  simp_all

theorem trigger_kb_opsOk (env : Env) (sid : JVal) (st : Sys) :
    ∀ op ∈ (trigger_kb_refresh env sid st).2, okProcessedPut op := by
  intro op hop k hk
  subst hk
  unfold trigger_kb_refresh at hop
  split at hop <;> simp_all

theorem register_event_opsOk (env : Env) (ph eid et sk rt : String) (sid : Option JVal)
    (st : Sys) : ∀ op ∈ (register_event env ph eid et sk rt sid st).2.2, okProcessedPut op := by
  intro op hop k hk
  subst hk
  unfold register_event at hop
  dsimp only at hop
  repeat' split at hop
  all_goals simp_all

theorem phase_bootstrap_store_opsOk (env : Env) (sid : Option JVal) (p : PyDict)
    (eid : String) (st : Sys) :
    ∀ op ∈ (phase_bootstrap_store env sid p eid st).2, okProcessedPut op := by
  intro op hop
  unfold phase_bootstrap_store at hop
  split at hop
  · exact create_store_opsOk _ _ _ _ _ op hop
  · simp at hop

theorem phase_bootstrap_product_opsOk (env : Env) (pid : Option String) (et : String)
    (p : PyDict) (st : Sys) :
    ∀ op ∈ (phase_bootstrap_product env pid et p st).2, okProcessedPut op := by
  intro op hop
  unfold phase_bootstrap_product at hop
  split at hop
  · split at hop
    · exact create_product_opsOk _ _ _ _ op hop
    · simp at hop
  · simp at hop

theorem phase_metadata_opsOk (env : Env) (p : PyDict) (et eid : String)
    (sid : Option JVal) (pid : Option String) (st : Sys) :
    ∀ op ∈ (phase_metadata env p et eid sid pid st).2.2, okProcessedPut op := by
  intro op hop
  unfold phase_metadata at hop
  split at hop
  · exact store_store_metadata_opsOk _ _ _ _ _ _ _ op hop
  · simp at hop

theorem phase_master_opsOk (env : Env) (p : PyDict) (et : String) (pid : Option String)
    (st : Sys) : ∀ op ∈ (phase_master_catalog env p et pid st).2.2, okProcessedPut op := by
  intro op hop
  unfold phase_master_catalog at hop
  split at hop
  · split at hop
    · exact store_to_master_opsOk _ _ _ _ op hop
    · simp at hop
  · simp at hop

theorem copy_and_refresh_opsOk (env : Env) (p : PyDict) (p2 : String) (sv : JVal)
    (st : Sys) : ∀ op ∈ (copy_and_refresh env p p2 sv st).2.2, okProcessedPut op := by
  intro op hop
  unfold copy_and_refresh at hop
  split at hop
  · simp at hop
  · dsimp only at hop
    split at hop
    · rcases List.mem_append.mp hop with h | h
      · exact copy_to_store_opsOk _ _ _ _ _ op h
      · exact trigger_kb_opsOk _ _ _ op h
    · exact copy_to_store_opsOk _ _ _ _ _ op hop
    · exact copy_to_store_opsOk _ _ _ _ _ op hop

theorem phase_store_catalog_opsOk (env : Env) (p : PyDict) (et : String)
    (pid : Option String) (sid : Option JVal) (st : Sys) :
    ∀ op ∈ (phase_store_catalog env p et pid sid st).2.2, okProcessedPut op := by
  intro op hop
  unfold phase_store_catalog at hop
  split at hop
  · split at hop
    · exact copy_and_refresh_opsOk _ _ _ _ _ op hop
    · simp at hop
  · split at hop
    · split at hop
      · exact copy_and_refresh_opsOk _ _ _ _ _ op hop
      · simp at hop
    · split at hop
      · split at hop
        · rcases List.mem_append.mp hop with h | h
          · exact delete_from_store_opsOk _ _ _ op h
          · exact trigger_kb_opsOk _ _ _ op h
        · simp at hop
      · simp at hop

theorem put_object_processed_rawB (env : Env) (k : String) (v : JVal) (st : Sys) :
    ((put_object env .processed k v st).2.1).rawBucket = st.rawBucket := by
  unfold put_object
  split <;> rfl

theorem store_to_master_rawB (env : Env) (p : PyDict) (pid : String) (st : Sys) :
    ((store_to_master_catalog env p pid st).2.1).rawBucket = st.rawBucket := by
  unfold store_to_master_catalog
  repeat' split
  all_goals first
    | rfl
    | exact put_object_processed_rawB _ _ _ _

theorem copy_to_store_rawB (env : Env) (pid : String) (sid : JVal) (m : Option JVal)
    (st : Sys) : ((copy_to_store_catalog env pid sid m st).2.1).rawBucket = st.rawBucket := by
  unfold copy_to_store_catalog
  dsimp only
  repeat' split
  all_goals first
    | rfl
    | exact put_object_processed_rawB _ _ _ _

theorem delete_from_store_rawB (pid : String) (sid : JVal) (st : Sys) :
    ((delete_from_store_catalog pid sid st).1).rawBucket = st.rawBucket := rfl

theorem trigger_kb_rawB (env : Env) (sid : JVal) (st : Sys) :
    ((trigger_kb_refresh env sid st).1).rawBucket = st.rawBucket := by
  unfold trigger_kb_refresh
  split <;> rfl

theorem register_event_rawB (env : Env) (ph eid et sk rt : String) (sid : Option JVal)
    (st : Sys) : ((register_event env ph eid et sk rt sid st).2.1).rawBucket = st.rawBucket := by
  unfold register_event
  repeat' split
  all_goals rfl

theorem phase_master_rawB (env : Env) (p : PyDict) (et : String) (pid : Option String)
    (st : Sys) : ((phase_master_catalog env p et pid st).2.1).rawBucket = st.rawBucket := by
  unfold phase_master_catalog
  repeat' split
  all_goals first
    | rfl
    | exact store_to_master_rawB _ _ _ _

theorem copy_and_refresh_rawB (env : Env) (p : PyDict) (p2 : String) (sv : JVal)
    (st : Sys) : ((copy_and_refresh env p p2 sv st).2.1).rawBucket = st.rawBucket := by
  unfold copy_and_refresh
  dsimp only
  repeat' split
  all_goals first
    | rfl
    | exact copy_to_store_rawB _ _ _ _ _
    | exact (trigger_kb_rawB _ _ _).trans (copy_to_store_rawB _ _ _ _ _)

theorem phase_store_catalog_rawB (env : Env) (p : PyDict) (et : String)
    (pid : Option String) (sid : Option JVal) (st : Sys) :
    ((phase_store_catalog env p et pid sid st).2.1).rawBucket = st.rawBucket := by
  unfold phase_store_catalog
  dsimp only
  repeat' split
  all_goals first
    | rfl
    | exact copy_and_refresh_rawB _ _ _ _ _
    | exact (trigger_kb_rawB _ _ _).trans (delete_from_store_rawB _ _ _)

theorem put_object_raw_rawB_mem (env : Env) (k : String) (v : JVal) (st : Sys)
    (x : String × JVal) (hx : x ∈ st.rawBucket) :
    x ∈ ((put_object env .raw k v st).2.1).rawBucket := by
  unfold put_object
  split
  · exact hx
  · exact List.mem_cons_of_mem _ hx

theorem store_store_metadata_rawB_mem (env : Env) (p : PyDict) (et eid : String)
    (sid : Option JVal) (pid : Option String) (st : Sys) (x : String × JVal)
    (hx : x ∈ st.rawBucket) :
    x ∈ ((store_store_metadata env p et eid sid pid st).2.1).rawBucket := by
  unfold store_store_metadata
  dsimp only
  repeat' split
  all_goals first
    | exact hx
    | exact put_object_raw_rawB_mem _ _ _ _ _ hx

theorem phase_metadata_rawB_mem (env : Env) (p : PyDict) (et eid : String)
    (sid : Option JVal) (pid : Option String) (st : Sys) (x : String × JVal)
    (hx : x ∈ st.rawBucket) :
    x ∈ ((phase_metadata env p et eid sid pid st).2.1).rawBucket := by
  unfold phase_metadata
  repeat' split
  all_goals first
    | exact hx
    | exact store_store_metadata_rawB_mem _ _ _ _ _ _ _ _ hx

theorem store_raw_ok_rawB (env : Env) (p : PyDict) (et eid : String) (sid : Option JVal)
    (st : Sys) (rk : String) (h : (store_raw_payload env p et eid sid st).1 = .ok rk) :
    ((store_raw_payload env p et eid sid st).2.1).rawBucket =
      (rk, JVal.obj p) :: st.rawBucket := by
  unfold store_raw_payload put_object at h ⊢
  dsimp only at h ⊢
  split at h
  · rename_i a heq
    injection h with h2
    subst h2
    split at heq
    · simp at heq
    · rename_i hc
      rw [if_neg hc]
      rfl
  · cases h

/-- C1 (amended): the handler never writes a processed-payload artifact. Every put attempted against the processed bucket targets a master-catalog or store-catalog key, and on a success response the raw payload artifact is present in the raw bucket under the returned raw key. -/
theorem c1_amended (env : Env) (st : Sys) (payload : PyDict) :
    (∀ op ∈ (lambda_handler env st payload).2.2, okProcessedPut op)
  ∧ (∀ eid ety rt rk ph sid pid mk mck sck,
       (lambda_handler env st payload).1 = .success eid ety rt rk ph sid pid mk mck sck →
       (rk, JVal.obj payload) ∈ (lambda_handler env st payload).2.1.rawBucket) := by
  have ht1 := check_idempotency_opsOk env (calculate_payload_hash (.obj payload)) st
  constructor
  · intro op hop
    rcases hrun : lambda_handler env st payload with ⟨res, st', tr⟩
    rw [hrun] at hop
    dsimp only at hop
    unfold lambda_handler at hrun
    dsimp only at hrun
    split at hrun
    · rename_i r t1 heq
      cases hrun
      have hts : tr = (check_idempotency env (calculate_payload_hash (.obj payload)) st).2 := by
        rw [heq]
      rw [hts] at hop
      exact ht1 op hop
    · rename_i t1 heq
      have hts : t1 = (check_idempotency env (calculate_payload_hash (.obj payload)) st).2 := by
        rw [heq]
      split at hrun
      · cases hrun
        rw [hts] at hop
        exact ht1 op hop
      · rename_i event_type hdet
        split at hrun
        · cases hrun
          rcases List.mem_append.mp hop with hop1 | hop1
          · rcases List.mem_append.mp hop1 with hop2 | hop2
            · rcases List.mem_append.mp hop2 with hop3 | hop3
              · rw [hts] at hop3
                exact ht1 op hop3
              · exact phase_bootstrap_store_opsOk _ _ _ _ _ op hop3
            · exact phase_bootstrap_product_opsOk _ _ _ _ _ op hop2
          · exact store_raw_opsOk _ _ _ _ _ _ op hop1
        · rename_i raw_s3_key hraw
          split at hrun
          all_goals
            (cases hrun
             rcases List.mem_append.mp hop with hop1 | hop1
             · rcases List.mem_append.mp hop1 with hop2 | hop2
               · rcases List.mem_append.mp hop2 with hop3 | hop3
                 · rcases List.mem_append.mp hop3 with hop4 | hop4
                   · rcases List.mem_append.mp hop4 with hop5 | hop5
                     · rcases List.mem_append.mp hop5 with hop6 | hop6
                       · rcases List.mem_append.mp hop6 with hop7 | hop7
                         · rw [hts] at hop7
                           exact ht1 op hop7
                         · exact phase_bootstrap_store_opsOk _ _ _ _ _ op hop7
                       · exact phase_bootstrap_product_opsOk _ _ _ _ _ op hop6
                     · exact store_raw_opsOk _ _ _ _ _ _ op hop5
                   · exact phase_metadata_opsOk _ _ _ _ _ _ _ op hop4
                 · exact phase_master_opsOk _ _ _ _ _ op hop3
               · exact phase_store_catalog_opsOk _ _ _ _ _ _ op hop2
             · exact register_event_opsOk _ _ _ _ _ _ _ _ op hop1)
  · intro eid ety rt rk ph sid pid mk mck sck h
    rcases hrun : lambda_handler env st payload with ⟨res, st', tr⟩
    rw [hrun] at h
    dsimp only at h
    dsimp only
    unfold lambda_handler at hrun
    dsimp only at hrun
    split at hrun
    · cases hrun
      cases h
    · rename_i t1 heq
      split at hrun
      · cases hrun
        cases h
      · rename_i event_type hdet
        split at hrun
        · cases hrun
          cases h
        · rename_i raw_s3_key hraw
          split at hrun
          · cases hrun
            cases h
          · cases hrun
            injection h with h1 h2 h3 h4 h5
            subst h4
            rw [register_event_rawB, phase_store_catalog_rawB, phase_master_rawB]
            apply phase_metadata_rawB_mem
            rw [store_raw_ok_rawB _ _ _ _ _ _ _ hraw]
            exact List.mem_cons_self _ _

set_option maxRecDepth 200000 in
/-- C1 witness: c1_amended instantiated on a concrete one-field payload. -/
theorem c1_witness :
    ("unknown/unknown/2026/10/12/f9d86028c6e0d64e-1791072000.json",
      JVal.obj [("a", JVal.num 1)]) ∈
      (lambda_handler testEnv emptySys [("a", .num 1)]).2.1.rawBucket :=
  (c1_amended testEnv emptySys [("a", .num 1)]).2
    "f9d86028c6e0d64e-1791072000" "unknown" "default-handler"
    "unknown/unknown/2026/10/12/f9d86028c6e0d64e-1791072000.json"
    "f9d86028c6e0d64e225186f96acb69338b2c59764df79162107f5c4bb34d1310"
    none none none none none (by decide)

set_option maxRecDepth 400000 in
/-- C1 counterexample: a successful product_create run writes no processed-payload artifact under the per-event processed key layout the spec describes, neither in the processed bucket nor as an attempted put in the operation trace. -/
theorem c1_cex :
    ((lambda_handler testEnv emptySys newProductPayload).1).isSuccess = true ∧
    s3get (lambda_handler testEnv emptySys newProductPayload).2.1.processedBucket
      "s1/product_create/2026/10/12/686fc5940cf76a87-1791072000.json" = none ∧
    Op.putObj Bucket.processed "s1/product_create/2026/10/12/686fc5940cf76a87-1791072000.json"
      ∉ (lambda_handler testEnv emptySys newProductPayload).2.2 := by decide

set_option maxRecDepth 400000 in
/-- C3 counterexample: with the master-catalog put injected to fail, the handler still attempts the master write, leaves the stale master entry in place, still reads the master key for propagation, and copies the stale entry into the store catalog. -/
theorem c3_cex :
    Op.putObj Bucket.processed "master/products/p1.json"
      ∈ (lambda_handler c3Env c3St0 newProductPayload).2.2 ∧
    s3get (lambda_handler c3Env c3St0 newProductPayload).2.1.processedBucket
      "master/products/p1.json" = some staleMaster ∧
    Op.getObj Bucket.processed "master/products/p1.json"
      ∈ (lambda_handler c3Env c3St0 newProductPayload).2.2 ∧
    s3get (lambda_handler c3Env c3St0 newProductPayload).2.1.processedBucket
      "stores/s1/products/p1.json" =
      some (.obj [("products", .obj [("id", .str "p1"), ("name", .str "Old"),
        ("product_variants", .arr [.obj [("price", .num 1999)]]),
        ("store_id", .str "s1")])]) := by decide

theorem truthyOptJ_eq_some {o : Option JVal} {v : JVal} (h : truthyOptJ o = some v) :
    o = some v := by
  unfold truthyOptJ at h
  cases o
  · cases h
  · rename_i w
    dsimp only at h
    by_cases hw : pyTruthy w = true
    · rw [if_pos hw] at h
      exact h
    · rw [if_neg hw] at h
      cases h

theorem store_raw_payload_ok (env : Env) (p : PyDict) (et eid : String) (sid : Option JVal)
    (st : Sys) (v : JVal) (hsid : sid = some v)
    (hnf : (Bucket.raw, raw_s3_key_of env et eid v) ∉ env.failPuts) :
    (store_raw_payload env p et eid sid st).1 = .ok (raw_s3_key_of env et eid v) := by
  subst hsid
  unfold store_raw_payload put_object
  dsimp only
  rw [if_neg hnf]

theorem copy_gets_master (env : Env) (p2 : String) (sv : JVal) (m : Option JVal) (st : Sys) :
    Op.getObj Bucket.processed ("master/products/" ++ p2 ++ ".json")
      ∈ (copy_to_store_catalog env p2 sv m st).2.2 := by
  unfold copy_to_store_catalog
  dsimp only
  repeat' split
  all_goals simp

theorem copy_and_refresh_gets_master (env : Env) (payload : PyDict) (p2 : String) (sv : JVal)
    (st : Sys) (m : Option JVal) (hm : extract_price_mods payload = .ok m) :
    Op.getObj Bucket.processed ("master/products/" ++ p2 ++ ".json")
      ∈ (copy_and_refresh env payload p2 sv st).2.2 := by
  unfold copy_and_refresh
  rw [hm]
  dsimp only
  have hg := copy_gets_master env p2 sv m st
  split
  · exact List.mem_append_left _ hg
  · exact hg
  · exact hg

/-- C3 (amended): a failed master-catalog write does not short-circuit propagation: on any product_create run with truthy product and store ids the store-catalog step still reads the master key. -/
theorem c3_amended (env : Env) (st : Sys) (payload : PyDict) (p2 : String) (sv : JVal)
    (m : Option JVal)
    (h1 : (check_idempotency env (calculate_payload_hash (.obj payload)) st).1 = none)
    (h2 : detect_event_type payload = .ok "product_create")
    (h3 : truthyOptS (get_product_id payload) = some p2)
    (h4 : truthyOptJ (get_store_id payload) = some sv)
    (h5 : (Bucket.raw, raw_s3_key_of env "product_create"
            (event_id_of env (calculate_payload_hash (.obj payload))) sv) ∉ env.failPuts)
    (h6 : extract_price_mods payload = .ok m) :
    Op.getObj Bucket.processed ("master/products/" ++ p2 ++ ".json")
      ∈ (lambda_handler env st payload).2.2 := by
  have hpair : check_idempotency env (calculate_payload_hash (.obj payload)) st =
      (none, [.queryLedger (calculate_payload_hash (.obj payload))]) := by
    rw [← h1, ← check_idempotency_ops env (calculate_payload_hash (.obj payload)) st]
  have hget : get_store_id payload = some sv := truthyOptJ_eq_some h4
  unfold lambda_handler
  dsimp only
  rw [hpair, h2]
  dsimp only
  rw [store_raw_payload_ok env payload "product_create"
    (event_id_of env (calculate_payload_hash (.obj payload))) (get_store_id payload) _ sv
    hget h5]
  dsimp only
  split
  all_goals
    (apply List.mem_append_left
     apply List.mem_append_right
     unfold phase_store_catalog
     rw [if_pos rfl, h3, h4]
     exact copy_and_refresh_gets_master env payload p2 sv _ m h6)

set_option maxRecDepth 400000 in
/-- C3 witness: c3_amended instantiated on the concrete stale-master scenario. -/
theorem c3_witness :
    Op.getObj Bucket.processed "master/products/p1.json"
      ∈ (lambda_handler c3Env c3St0 newProductPayload).2.2 :=
  c3_amended c3Env c3St0 newProductPayload "p1" (.str "s1") (some (.num 1999))
    (by decide) (by decide) (by decide) (by decide) (by decide) (by decide)

theorem dget_some_hasKey {fs : PyDict} {k : String} {v : JVal} (h : dget fs k = some v) :
    hasKey fs k = true := by
  induction fs with
  | nil => cases h
  | cons p t ih =>
    unfold dget at h ih
    unfold hasKey at ih ⊢
    rw [List.find?_cons] at h
    rw [List.any_cons]
    split at h
    · rename_i hp
      simp [hp]
    · rename_i hp
      simp only [Bool.or_eq_true]
      exact Or.inr (ih h)

theorem hasKey_false_dget {fs : PyDict} {k : String} (h : hasKey fs k = false) :
    dget fs k = none := by
  induction fs with
  | nil => rfl
  | cons p t ih =>
    unfold hasKey at h ih
    unfold dget at ih ⊢
    rw [List.any_cons] at h
    rw [List.find?_cons]
    split
    · rename_i hp
      rw [hp] at h
      simp at h
    · simp only [Bool.or_eq_false_iff] at h
      exact ih h.2

theorem hasKey_dget {fs : PyDict} {k : String} (h : hasKey fs k = true) :
    ∃ v, dget fs k = some v := by
  induction fs with
  | nil => cases h
  | cons p t ih =>
    unfold hasKey at h ih
    unfold dget at ih ⊢
    rw [List.any_cons] at h
    rw [List.find?_cons]
    split
    · exact ⟨p.2, rfl⟩
    · rename_i hp
      simp only [Bool.or_eq_true] at h
      rcases h with h | h
      · rw [h] at hp
        simp at hp
      · exact ih h

theorem truthyOptS_eq_some {o : Option String} {v : String} (h : truthyOptS o = some v) :
    o = some v := by
  unfold truthyOptS at h
  cases o
  · cases h
  · rename_i w
    dsimp only at h
    by_cases hw : w ≠ ""
    · rw [if_pos hw] at h
      exact h
    · rw [if_neg hw] at h
      cases h

theorem get_product_id_products_obj {payload : PyDict} {p : String}
    (h : get_product_id payload = some p) :
    ∃ pf, dget payload "products" = some (.obj pf) := by
  unfold get_product_id at h
  rcases hd : dget payload "products" with _ | v
  · rw [hd] at h
    cases h
  · rcases v with _ | b | n | s | xs | fs
    all_goals rw [hd] at h
    all_goals first
      | cases h
      | exact ⟨fs, rfl⟩

theorem extract_eq_first_variant (payload : PyDict) (pf : PyDict)
    (hpf : dget payload "products" = some (.obj pf)) (m : Option JVal)
    (hm : extract_price_mods payload = .ok m) : m = first_variant_price payload := by
  unfold extract_price_mods at hm
  unfold first_variant_price
  rw [hpf] at hm ⊢
  rw [if_pos (dget_some_hasKey hpf)] at hm
  dsimp only [Option.getD] at hm
  unfold pyContains at hm
  dsimp only at hm ⊢
  rcases hpv : hasKey pf "product_variants" with _ | _
  · rw [hpv] at hm
    dsimp only at hm
    injection hm with hm2
    subst hm2
    rw [hasKey_false_dget hpv]
  · rw [hpv] at hm
    dsimp only at hm
    unfold pyIndex at hm
    dsimp only at hm
    rcases hvv : dget pf "product_variants" with _ | variants
    · obtain ⟨w, hw⟩ := hasKey_dget hpv
      rw [hvv] at hw
      cases hw
    · rcases variants with _ | b | n | s | xs | fs2
      all_goals try rw [hvv] at hm
      all_goals try dsimp only at hm ⊢
      all_goals try (injection hm with hm2; subst hm2; rfl)
      rcases xs with _ | ⟨v0, rest⟩
      · try dsimp only at hm ⊢
        injection hm with hm2
        subst hm2
        rfl
      · try dsimp only at hm ⊢
        rcases v0 with _ | b0 | n0 | s0 | xs0 | f0
        all_goals try dsimp only at hm ⊢
        all_goals try cases hm
        · rcases hsub : pySubstr "price" s0 with _ | _
          all_goals try rw [hsub] at hm
          all_goals try dsimp only at hm
          · injection hm with hm2
            subst hm2
            rfl
          · cases hm
        · rcases hc : xs0.contains (JVal.str "price") with _ | _
          all_goals try rw [hc] at hm
          all_goals try dsimp only at hm
          · injection hm with hm2
            subst hm2
            rfl
          · cases hm
        · rcases hpk : hasKey f0 "price" with _ | _
          all_goals try rw [hpk] at hm
          all_goals try dsimp only at hm ⊢
          · injection hm with hm2
            subst hm2
            rw [hasKey_false_dget hpk]
          · try dsimp only at hm
            rcases hpr : dget f0 "price" with _ | pr
            · obtain ⟨w, hw⟩ := hasKey_dget hpk
              rw [hpr] at hw
              cases hw
            · try rw [hpr] at hm
              try dsimp only at hm
              injection hm with hm2
              subst hm2
              first
                | rfl
                | rw [hpr]

theorem s3get_cons_self (l : List (String × JVal)) (k : String) (v : JVal) :
    s3get ((k, v) :: l) k = some v := by
  simp [s3get]

theorem trigger_kb_processedB (env : Env) (sid : JVal) (st : Sys) :
    ((trigger_kb_refresh env sid st).1).processedBucket = st.processedBucket := by
  unfold trigger_kb_refresh
  split <;> rfl

theorem register_event_processedB (env : Env) (ph eid et sk rt : String) (sid : Option JVal)
    (st : Sys) :
    ((register_event env ph eid et sk rt sid st).2.1).processedBucket = st.processedBucket := by
  unfold register_event
  repeat' split
  all_goals rfl

theorem store_to_master_ok_processedB (env : Env) (payload : PyDict) (pid : String) (st : Sys)
    (hnf : (Bucket.processed, "master/products/" ++ pid ++ ".json") ∉ env.failPuts) :
    ((store_to_master_catalog env payload pid st).2.1).processedBucket =
      ("master/products/" ++ pid ++ ".json", JVal.obj payload) :: st.processedBucket := by
  unfold store_to_master_catalog put_object
  dsimp only
  rw [if_neg hnf]
  rfl

theorem phase_master_content (env : Env) (payload : PyDict) (et : String)
    (pid : Option String) (p2 : String) (st : Sys)
    (hET : et = "product_create" ∨ et = "product_update")
    (h3 : truthyOptS pid = some p2)
    (h6 : (Bucket.processed, "master/products/" ++ p2 ++ ".json") ∉ env.failPuts) :
    ((phase_master_catalog env payload et pid st).2.1).processedBucket =
      ("master/products/" ++ p2 ++ ".json", JVal.obj payload) :: st.processedBucket := by
  rcases hET with h | h <;> subst h <;> unfold phase_master_catalog <;>
    rw [if_pos (by decide), h3] <;> dsimp only <;>
    exact store_to_master_ok_processedB env payload p2 st h6

theorem phase_store_catalog_eq_copy (env : Env) (payload : PyDict) (et : String)
    (pid : Option String) (sid : Option JVal) (p2 : String) (sv : JVal) (st : Sys)
    (hET : et = "product_create" ∨ et = "product_update")
    (h3 : truthyOptS pid = some p2) (h4 : truthyOptJ sid = some sv) :
    phase_store_catalog env payload et pid sid st = copy_and_refresh env payload p2 sv st := by
  rcases hET with h | h <;> subst h <;> unfold phase_store_catalog
  · rw [if_pos rfl, h3, h4]
  · rw [if_neg (by decide), if_pos rfl, h3, h4]

theorem copy_content (env : Env) (p2 : String) (sv : JVal) (st : Sys)
    (payload : PyDict) (pf : PyDict)
    (hmaster : s3get st.processedBucket ("master/products/" ++ p2 ++ ".json") =
      some (.obj payload))
    (hpf : dget payload "products" = some (.obj pf))
    (hnf : (Bucket.processed, "stores/" ++ pyStr sv ++ "/products/" ++ p2 ++ ".json")
      ∉ env.failPuts) :
    (copy_to_store_catalog env p2 sv (first_variant_price payload) st).1 =
      .ok (some ("stores/" ++ pyStr sv ++ "/products/" ++ p2 ++ ".json")) ∧
    ((copy_to_store_catalog env p2 sv (first_variant_price payload) st).2.1).processedBucket =
      ("stores/" ++ pyStr sv ++ "/products/" ++ p2 ++ ".json", store_copy_spec payload sv)
        :: st.processedBucket := by
  unfold copy_to_store_catalog put_object
  dsimp only
  rw [hmaster]
  dsimp only
  rw [hpf]
  dsimp only
  unfold store_copy_spec
  rw [hpf]
  dsimp only
  rcases hfv : first_variant_price payload with _ | pr
  · have hmt : (match (none : Option JVal) with
        | some p => pyTruthy p
        | none => false) = false := rfl
    rw [hmt, Bool.and_false]
    rw [if_neg (show ¬(false = true) by decide)]
    dsimp only
    rw [if_neg hnf]
    exact ⟨rfl, rfl⟩
  · have hfv2 := hfv
    unfold first_variant_price at hfv2
    rw [hpf] at hfv2
    dsimp only at hfv2
    have hmt : (match some pr with
        | some p => pyTruthy p
        | none => false) = pyTruthy pr := rfl
    rw [hmt]
    rcases hvv : dget pf "product_variants" with _ | variants
    · rw [hvv] at hfv2
      cases hfv2
    · rcases variants with _ | b | n | s | xs | fs2
      all_goals rw [hvv] at hfv2
      all_goals try dsimp only at hfv2
      all_goals try cases hfv2
      rcases xs with _ | ⟨v0, rest⟩
      · dsimp only at hfv2
        cases hfv2
      · rcases v0 with _ | b0 | n0 | s0 | xs0 | f0
        all_goals dsimp only at hfv2
        all_goals try cases hfv2
        by_cases hpr : pyTruthy pr = true
        · rw [if_pos (show (hasKey pf "product_variants" && pyTruthy pr) = true by
            rw [dget_some_hasKey hvv, hpr]
            rfl)]
          dsimp only [Option.getD, overwriteVariantPrices]
          rw [if_neg hnf]
          rw [if_pos hpr]
          exact ⟨rfl, rfl⟩
        · rw [if_neg (show ¬((hasKey pf "product_variants" && pyTruthy pr) = true) by
            rw [Bool.eq_false_iff.mpr hpr, Bool.and_false]; decide)]
          dsimp only
          rw [if_neg hnf]
          rw [if_neg hpr]
          exact ⟨rfl, rfl⟩

/-- C8 (amended): after a product_create or product_update with truthy product and store ids, a ledger miss, and no injected failures, the store-scoped catalog entry equals the master record with each dict variant price overwritten by the first variant price of the triggering payload when that price is truthy and left unchanged otherwise, and with the embedded store_id stamped to the triggering store_id. -/
theorem c8_amended (env : Env) (st : Sys) (payload : PyDict) (et p2 : String) (sv : JVal)
    (m : Option JVal)
    (h1 : (check_idempotency env (calculate_payload_hash (.obj payload)) st).1 = none)
    (h2 : detect_event_type payload = .ok et)
    (hET : et = "product_create" ∨ et = "product_update")
    (h3 : truthyOptS (get_product_id payload) = some p2)
    (h4 : truthyOptJ (get_store_id payload) = some sv)
    (h5 : (Bucket.raw, raw_s3_key_of env et
            (event_id_of env (calculate_payload_hash (.obj payload))) sv) ∉ env.failPuts)
    (h6 : extract_price_mods payload = .ok m)
    (h7 : (Bucket.processed, "master/products/" ++ p2 ++ ".json") ∉ env.failPuts)
    (h8 : (Bucket.processed, "stores/" ++ pyStr sv ++ "/products/" ++ p2 ++ ".json")
            ∉ env.failPuts) :
    s3get ((lambda_handler env st payload).2.1).processedBucket
      ("stores/" ++ pyStr sv ++ "/products/" ++ p2 ++ ".json") =
      some (store_copy_spec payload sv) := by
  have hpair : check_idempotency env (calculate_payload_hash (.obj payload)) st =
      (none, [.queryLedger (calculate_payload_hash (.obj payload))]) := by
    rw [← h1, ← check_idempotency_ops env (calculate_payload_hash (.obj payload)) st]
  have hget : get_store_id payload = some sv := truthyOptJ_eq_some h4
  have hgp : get_product_id payload = some p2 := truthyOptS_eq_some h3
  obtain ⟨pf, hpf⟩ := get_product_id_products_obj hgp
  have hmfv : m = first_variant_price payload := extract_eq_first_variant payload pf hpf m h6
  subst hmfv
  have hcc := fun (S : Sys) =>
    copy_content env p2 sv ((phase_master_catalog env payload et
        (get_product_id payload) S).2.1) payload pf
      (by rw [phase_master_content env payload et (get_product_id payload) p2 S hET h3 h7]
          exact s3get_cons_self _ _ _)
      hpf h8
  unfold lambda_handler
  dsimp only
  rw [hpair, h2]
  dsimp only
  rw [store_raw_payload_ok env payload et
    (event_id_of env (calculate_payload_hash (.obj payload))) (get_store_id payload) _ sv
    hget h5]
  dsimp only
  split
  all_goals
    (dsimp only
     rw [register_event_processedB]
     rw [phase_store_catalog_eq_copy env payload et (get_product_id payload)
       (get_store_id payload) p2 sv _ hET h3 h4]
     unfold copy_and_refresh
     rw [h6]
     dsimp only
     rw [(hcc _).1]
     dsimp only
     rw [trigger_kb_processedB]
     rw [(hcc _).2]
     exact s3get_cons_self _ _ _)

set_option maxRecDepth 400000 in
/-- C8 witness: c8_amended instantiated on a concrete product_create run. -/
theorem c8_witness :
    s3get ((lambda_handler testEnv emptySys newProductPayload).2.1).processedBucket
      ("stores/" ++ pyStr (.str "s1") ++ "/products/" ++ "p1" ++ ".json") =
      some (store_copy_spec newProductPayload (.str "s1")) :=
  c8_amended testEnv emptySys newProductPayload "product_create" "p1" (.str "s1")
    (some (.num 1999)) (by decide) (by decide) (Or.inl rfl) (by decide) (by decide)
    (by decide) (by decide) (by decide) (by decide)

set_option maxRecDepth 400000 in
/-- C8 counterexample: a present but falsy first variant price (zero) is not propagated: the stored copy keeps the original variant prices instead of overwriting them, refuting the whenever-present reading of the claim. -/
theorem c8_cex :
    first_variant_price c8Payload = some (.num 0) ∧
    s3get ((lambda_handler testEnv emptySys c8Payload).2.1).processedBucket
      "stores/s1/products/p9.json" = some (.obj c8Payload) ∧
    s3get ((lambda_handler testEnv emptySys c8Payload).2.1).processedBucket
      "stores/s1/products/p9.json" ≠
      some (.obj
        [("event_type", .str "new_product"),
         ("products", .obj
           [("name", .str "Zero Priced"),
            ("product_id", .str "p9"),
            ("store_id", .str "s1"),
            ("product_variants",
              .arr [.obj [("price", .num 0)], .obj [("price", .num 0)]])])]) := by decide

/-- C2 witness: c2_amended applied to a concrete unrecognized payload, giving unknown. -/
theorem c2_witness :
    detect_event_type [("foo", .num 1)] = .ok "unknown" :=
  c2_amended.2.2 [("foo", .num 1)] rfl rfl rfl
